import Mathlib

/-!
# Verification of the upwork-dna ingestion/scoring orchestrator

Shallow embedding of the backend orchestrator (`backend/orchestrator.py`)
and the FastAPI concurrency layer (`backend/main.py`).

Conventions of the embedding:
* Python floats are modelled as rationals (`ℚ`); every constant appearing in
  the scoring formulas is an exact decimal, so no precision is lost.
* `round(x, 2)` is modelled by `round2` (round to the nearest hundredth);
  no claim in this development depends on the tie-breaking rule.
* Python strings are Lean `String`s; `.strip()`/`.lower()`/slicing are
  modelled by `pyStrip`/`pyLower`/`pyTake` operating on the character list
  (Python slices and `len` operate on code points, as these do).
* `datetime` values are rationals measured in hours; `utcnow() - t` in hours
  becomes `now - t`.
* Library primitives with no arithmetic content (the SHA-1 digest of
  `hashlib`, `datetime.fromisoformat`, and the CSV/JSON row readers) are
  abstracted as parameters of an `Env` record: each theorem that touches them
  holds for every instantiation, in particular for the real primitives.
-/

namespace UpworkDNA

/-! ## Python string primitives -/

/-- Python `str.strip()`: drop whitespace from both ends. -/
def pyStrip (s : String) : String :=
  String.mk (((s.data.dropWhile Char.isWhitespace).reverse.dropWhile
    Char.isWhitespace).reverse)

/-- Python `str.lower()` (the source only lowercases ASCII data). -/
def pyLower (s : String) : String :=
  String.mk (s.data.map Char.toLower)

/-- Python slicing `s[:n]` (operates on code points). -/
def pyTake (s : String) (n : ℕ) : String :=
  String.mk (s.data.take n)

/-- Does `needle` occur contiguously inside the second list? -/
def hasSubList (needle : List Char) : List Char → Bool
  | [] => needle.isEmpty
  | c :: rest => needle.isPrefixOf (c :: rest) || hasSubList needle rest

/-- Python `needle in haystack` for strings: substring test. -/
def containsSub (haystack needle : String) : Bool :=
  hasSubList needle.data haystack.data

/-! ## Numeric parsing helpers (`orchestrator.py` lines 115-166) -/

/-- `clamp(value, 0.0, 100.0)`; the source always uses the default bounds. -/
def clamp (value : ℚ) : ℚ := max 0 (min 100 value)

/-- Python `round(x, 2)`. -/
def round2 (q : ℚ) : ℚ := ((round (q * 100) : ℤ) : ℚ) / 100

/-- Python `round(x, 4)` (used for the stored gap ratio). -/
def round4 (q : ℚ) : ℚ := ((round (q * 10000) : ℤ) : ℚ) / 10000

/-- Decimal value of a run of digit characters. -/
def digitsToNat (ds : List Char) : ℕ :=
  ds.foldl (fun acc c => 10 * acc + (c.toNat - 48)) 0

/-- The first maximal run of digits in a character list, if any
(`re.search(r"\d+", ...)`). -/
def firstDigitRun : List Char → Option (List Char)
  | [] => none
  | c :: rest =>
      if c.isDigit then some (c :: rest.takeWhile Char.isDigit)
      else firstDigitRun rest

/-- `parse_int_value` on a string: the first run of digits, as an integer.
(The Python function also accepts `None`/`int`/`float`; call sites in this
development pass optional strings, handled by `Option.bind`.) -/
def parseIntValue (s : String) : Option ℤ :=
  (firstDigitRun s.data).map (fun ds => (digitsToNat ds : ℤ))

/-- Value of an integer part plus a fractional digit run. -/
def ratOfParts (ds fs : List Char) : ℚ :=
  (digitsToNat ds : ℚ) + (digitsToNat fs : ℚ) / ((10 : ℚ) ^ fs.length)

/-- All matches of `re.findall(r"(\d+(?:\.\d+)?)(k)?", text)`, each number
multiplied by 1000 when directly followed by `k` — the number list used by
`parse_money_value`. -/
def scanMoney (l : List Char) : List ℚ :=
  match l with
  | [] => []
  | c :: rest =>
    if c.isDigit then
      let ds := c :: rest.takeWhile Char.isDigit
      match h1 : rest.dropWhile Char.isDigit with
      | '.' :: d2 :: r2 =>
        if d2.isDigit then
          let fs := d2 :: r2.takeWhile Char.isDigit
          match h3 : r2.dropWhile Char.isDigit with
          | 'k' :: r4 => (ratOfParts ds fs * 1000) :: scanMoney r4
          | r3 => ratOfParts ds fs :: scanMoney r3
        else (digitsToNat ds : ℚ) :: scanMoney ('.' :: d2 :: r2)
      | 'k' :: r4 => ((digitsToNat ds : ℚ) * 1000) :: scanMoney r4
      | r1 => (digitsToNat ds : ℚ) :: scanMoney r1
    else scanMoney rest
termination_by l.length
decreasing_by
  all_goals
    have hd : (List.dropWhile Char.isDigit rest).length ≤ rest.length :=
      (List.dropWhile_sublist _).length_le
    try have e1 := congrArg List.length h1
    try have hd2 : (List.dropWhile Char.isDigit r2).length ≤ r2.length :=
      (List.dropWhile_sublist _).length_le
    try have e3 := congrArg List.length h3
    simp only [List.length_cons] at *
    omega

/-- `parse_money_value`: lowercase, strip, drop commas, average every number
found (with `k` expansion); `None` when no number occurs. -/
def parseMoneyValue (v : Option String) : Option ℚ :=
  v.bind fun s =>
    let text := pyLower (pyStrip s)
    if text = "" then none
    else
      match scanMoney (text.replace "," "").data with
      | [] => none
      | n :: rest => some ((n :: rest).sum / ((n :: rest).length : ℚ))

/-- `_parse_float`: first `\d+(\.\d+)?` in the string. -/
def firstNumber : List Char → Option ℚ
  | [] => none
  | c :: rest =>
    if c.isDigit then
      let ds := c :: rest.takeWhile Char.isDigit
      some (match rest.dropWhile Char.isDigit with
            | '.' :: d2 :: r2 =>
                if d2.isDigit then ratOfParts ds (d2 :: r2.takeWhile Char.isDigit)
                else (digitsToNat ds : ℚ)
            | _ => (digitsToNat ds : ℚ))
    else firstNumber rest

/-- `_parse_float` on an optional string field. -/
def parseFloatValue (v : Option String) : Option ℚ :=
  v.bind fun s => firstNumber s.data

/-- `parse_bool_value` on an optional string cell (`None` is falsy). -/
def parseBoolValue (v : Option String) : Bool :=
  match v with
  | none => false
  | some s =>
      let t := pyLower (pyStrip s)
      t = "1" || t = "true" || t = "yes" || t = "verified" ||
        t = "payment verified" || t = "y"

/-! ## Scoring engine (`orchestrator.py` lines 33-112 and 265-392) -/

/-- `SUSPICIOUS_TERMS` (a Python set; only membership is used). -/
def SUSPICIOUS_TERMS : List String :=
  ["telegram", "whatsapp", "crypto wallet", "upfront fee", "gift card",
   "wire transfer"]

/-- The static `FIT_TERM_WEIGHTS` table, in source order. -/
def FIT_TERM_WEIGHTS : List (String × ℚ) :=
  [("python", 14), ("n8n", 14), ("fastapi", 14), ("langchain", 14),
   ("rag", 14), ("ai agent", 14), ("api integration", 14), ("automation", 14),
   ("web scraping", 14), ("data extraction", 14), ("etl", 14),
   ("vector database", 14), ("pinecone", 12), ("chromadb", 12),
   ("prompt engineering", 14), ("chatbot", 14), ("sql", 12),
   ("openai", 12), ("workflow automation", 12), ("data pipeline", 12),
   ("automated workflow", 10), ("process automation", 10),
   ("excel automation", 10), ("google sheets", 10), ("data cleaning", 10),
   ("pdf extraction", 10), ("email extraction", 10), ("reporting", 8),
   ("llm", 12), ("gpt", 10), ("ai", 10), ("machine learning", 8), ("nlp", 8),
   ("flask", 8), ("scraping", 10), ("selenium", 8), ("beautifulsoup", 8),
   ("pandas", 8), ("agentic", 12), ("crewai", 10), ("langgraph", 12),
   ("autogen", 10),
   ("wordpress theme", -20), ("graphic design", -20), ("video editing", -20),
   ("social media management", -15), ("seo writing", -15),
   ("content writing", -10), ("react native", -10), ("flutter", -10),
   ("unity", -15), ("game development", -15), ("accounting", -15),
   ("bookkeeping", -15)]

/-- Proposal staleness thresholds. -/
def PROPOSALS_FRESH_MAX : ℤ := 15

def PROPOSALS_STALE_THRESHOLD : ℤ := 30

def PROPOSALS_DEAD_THRESHOLD : ℤ := 50

/-- `score_priority`. -/
def scorePriority (opportunityScore : ℚ) : String :=
  if opportunityScore ≥ 85 then "CRITICAL"
  else if opportunityScore ≥ 70 then "HIGH"
  else if opportunityScore ≥ 55 then "NORMAL"
  else "LOW"

/-- Sum of the weights of all terms occurring in the (already lowercased)
text — the `raw_score` accumulation loop of `compute_fit_score`. -/
def fitRawScore (weights : List (String × ℚ)) (normalized : String) : ℚ :=
  weights.foldl
    (fun acc tw => if containsSub normalized tw.1 then acc + tw.2 else acc) 0

/-- `compute_fit_score`, parameterized by the weight table.  The source
augments the static `FIT_TERM_WEIGHTS` with profile-sync terms (weight 10/8,
only for terms not already present) inside a `try/except` that falls back to
the static table; every theorem below quantifies over the table and therefore
covers both the augmented and the fallback behaviour. -/
def computeFitScore (weights : List (String × ℚ)) (text : String) : ℚ :=
  round2 (clamp (fitRawScore weights (pyLower text) / 100 * 100))

/-- The tiered proposal-count staleness penalty of `compute_freshness_score`
(0 when the proposal count cannot be parsed). -/
def proposalsPenalty (proposals : Option ℤ) : ℚ :=
  match proposals with
  | none => 0
  | some p =>
      if p ≥ PROPOSALS_DEAD_THRESHOLD then 60
      else if p ≥ PROPOSALS_STALE_THRESHOLD then 35
      else if p ≥ PROPOSALS_FRESH_MAX then 15
      else 0

/-- The scrape-age penalty bands of `compute_freshness_score`. -/
def agePenalty (ageHours : ℚ) : ℚ :=
  if ageHours > 120 then 30
  else if ageHours > 72 then 15
  else if ageHours > 48 then 5
  else 0

/-- `compute_freshness_score(proposals_str, scraped_at)`.  `scrapedAt` is the
stored datetime in hours (`None` skips the age penalty, mirroring
`if scraped_at:`); `now` stands for `datetime.utcnow()`. -/
def computeFreshnessScore (proposalsStr : String) (scrapedAt : Option ℚ)
    (now : ℚ) : ℚ :=
  let base := 100 - proposalsPenalty (parseIntValue proposalsStr)
  let score :=
    match scrapedAt with
    | none => base
    | some t => base - agePenalty (now - t)
  round2 (clamp score)

/-- `compute_safety_score`. -/
def computeSafetyScore (paymentVerified : Bool) (clientSpend : Option ℚ)
    (proposals : Option ℤ) (budgetValue : Option ℚ)
    (description : String) : ℚ :=
  let s1 : ℚ := if paymentVerified then 25 else 5
  let spend := clientSpend.getD 0
  let s2 := s1 + (if spend ≥ 10000 then 20
                  else if spend ≥ 1000 then 15
                  else if spend ≥ 100 then 8 else 0)
  let s3 := s2 + (match proposals with
                  | none => 0
                  | some p =>
                      if p ≤ 10 then 15
                      else if p ≤ 20 then 10
                      else if p ≤ 50 then 3 else -10)
  let s4 := s3 + (match budgetValue with
                  | none => 0
                  | some b =>
                      if b < 10 then -20
                      else if b ≤ 30 then 4
                      else if b ≤ 10000 then 15 else -5)
  let dlen := (pyStrip description).data.length
  let s5 := s4 + (if dlen ≥ 300 then 15
                  else if dlen ≥ 120 then 10
                  else if dlen ≥ 50 then 5 else -12)
  let descLower := pyLower description
  let s6 := s5 - (if SUSPICIOUS_TERMS.any (fun t => containsSub descLower t)
                  then 40 else 0)
  round2 (clamp s6)

/-- Average of the non-null budget values of a keyword's jobs (0 when none). -/
def budgetAverage (budgets : List ℚ) : ℚ :=
  if budgets = [] then 0 else budgets.sum / (budgets.length : ℚ)

/-- The composite per-keyword opportunity score computed by
`_refresh_keyword_metric`: `demand`/`supply` are the keyword's job and talent
row counts, `recentJobs` the jobs scraped in the last 7 days, `budgetAvg` the
average parsed budget. -/
def keywordOpportunityScore (demand supply recentJobs : ℕ)
    (budgetAvg : ℚ) : ℚ :=
  let gapRatio : ℚ := (demand : ℚ) / ((max supply 1 : ℕ) : ℚ)
  let competitionInverse := clamp (100 - min 90 ((supply : ℚ) * 4))
  let olderJobs : ℕ := demand - recentJobs
  let trendRatio : ℚ := ((recentJobs : ℚ) + 1) / ((olderJobs : ℚ) + 1)
  let trendScore := clamp (trendRatio * 35)
  let demandScore := clamp ((demand : ℚ) * 5)
  let gapScore := clamp (gapRatio * 20)
  let budgetScore := clamp (budgetAvg / 20)
  round2 (demandScore * (30 / 100) + gapScore * (25 / 100)
    + budgetScore * (20 / 100) + competitionInverse * (15 / 100)
    + trendScore * (10 / 100))

/-- The per-job opportunity score of `_refresh_job_opportunities`:
`keywordScore` is the stored keyword recommendation score (50 when absent)
and `budgetValue` the job's parsed budget (`job.budget_value or 0.0`). -/
def jobOpportunityScore (keywordScore : ℚ) (budgetValue : Option ℚ) : ℚ :=
  round2 (keywordScore * (70 / 100)
    + clamp (budgetValue.getD 0 / 20) * (30 / 100))

/-! ## Elementary bounds of the numeric helpers -/

theorem clamp_nonneg (v : ℚ) : 0 ≤ clamp v := le_max_left 0 _

theorem clamp_le_100 (v : ℚ) : clamp v ≤ 100 :=
  max_le (by norm_num) (min_le_left _ _)

theorem clamp_mono {a b : ℚ} (h : a ≤ b) : clamp a ≤ clamp b :=
  max_le_max le_rfl (min_le_min le_rfl h)

theorem round_rat_mono {a b : ℚ} (h : a ≤ b) : round a ≤ round b := by
  rw [round_eq, round_eq]
  exact Int.floor_le_floor (by linarith)

theorem round2_mono {a b : ℚ} (h : a ≤ b) : round2 a ≤ round2 b := by
  unfold round2
  have hr : round (a * 100) ≤ round (b * 100) :=
    round_rat_mono (by linarith)
  have : ((round (a * 100) : ℤ) : ℚ) ≤ ((round (b * 100) : ℤ) : ℚ) :=
    Int.cast_le.mpr hr
  linarith

theorem round2_zero : round2 0 = 0 := by
  simp [round2]

theorem round2_100 : round2 100 = 100 := by
  have h : (100 : ℚ) * 100 = ((10000 : ℤ) : ℚ) := by norm_num
  rw [round2, h, round_intCast]
  norm_num

theorem round2_nonneg {q : ℚ} (h : 0 ≤ q) : 0 ≤ round2 q := by
  have := round2_mono h
  rw [round2_zero] at this
  exact this

theorem round2_le_100 {q : ℚ} (h : q ≤ 100) : round2 q ≤ 100 := by
  have := round2_mono h
  rw [round2_100] at this
  exact this

/-- Bounds of the five-component weighted blend used by
`_refresh_keyword_metric` (weights 0.30/0.25/0.20/0.15/0.10, summing to 1). -/
theorem weightedSum_bounds (c1 c2 c3 c4 c5 : ℚ)
    (h1l : 0 ≤ c1) (h1u : c1 ≤ 100) (h2l : 0 ≤ c2) (h2u : c2 ≤ 100)
    (h3l : 0 ≤ c3) (h3u : c3 ≤ 100) (h4l : 0 ≤ c4) (h4u : c4 ≤ 100)
    (h5l : 0 ≤ c5) (h5u : c5 ≤ 100) :
    0 ≤ round2 (c1 * (30 / 100) + c2 * (25 / 100) + c3 * (20 / 100)
        + c4 * (15 / 100) + c5 * (10 / 100)) ∧
      round2 (c1 * (30 / 100) + c2 * (25 / 100) + c3 * (20 / 100)
        + c4 * (15 / 100) + c5 * (10 / 100)) ≤ 100 := by
  constructor
  · apply round2_nonneg
    nlinarith
  · apply round2_le_100
    nlinarith

theorem keywordOpportunityScore_bounds (d s r : ℕ) (b : ℚ) :
    0 ≤ keywordOpportunityScore d s r b ∧
      keywordOpportunityScore d s r b ≤ 100 := by
  simp only [keywordOpportunityScore]
  exact weightedSum_bounds _ _ _ _ _
    (clamp_nonneg _) (clamp_le_100 _) (clamp_nonneg _) (clamp_le_100 _)
    (clamp_nonneg _) (clamp_le_100 _) (clamp_nonneg _) (clamp_le_100 _)
    (clamp_nonneg _) (clamp_le_100 _)

theorem jobOpportunityScore_bounds (ks : ℚ) (bv : Option ℚ)
    (h0 : 0 ≤ ks) (h1 : ks ≤ 100) :
    0 ≤ jobOpportunityScore ks bv ∧ jobOpportunityScore ks bv ≤ 100 := by
  simp only [jobOpportunityScore]
  have hc0 := clamp_nonneg (bv.getD 0 / 20)
  have hc1 := clamp_le_100 (bv.getD 0 / 20)
  constructor
  · apply round2_nonneg
    nlinarith
  · apply round2_le_100
    nlinarith

theorem computeFitScore_bounds (w : List (String × ℚ)) (t : String) :
    0 ≤ computeFitScore w t ∧ computeFitScore w t ≤ 100 := by
  simp only [computeFitScore]
  exact ⟨round2_nonneg (clamp_nonneg _), round2_le_100 (clamp_le_100 _)⟩

theorem computeSafetyScore_bounds (pv : Bool) (cs : Option ℚ) (p : Option ℤ)
    (bv : Option ℚ) (d : String) :
    0 ≤ computeSafetyScore pv cs p bv d ∧
      computeSafetyScore pv cs p bv d ≤ 100 := by
  simp only [computeSafetyScore]
  exact ⟨round2_nonneg (clamp_nonneg _), round2_le_100 (clamp_le_100 _)⟩

theorem computeFreshnessScore_bounds (s : String) (sc : Option ℚ) (now : ℚ) :
    0 ≤ computeFreshnessScore s sc now ∧
      computeFreshnessScore s sc now ≤ 100 := by
  simp only [computeFreshnessScore]
  exact ⟨round2_nonneg (clamp_nonneg _), round2_le_100 (clamp_le_100 _)⟩

/-- C2: every score the system produces lies in `[0, 100]`: Fit, Safety,
Freshness, the per-keyword composite opportunity score, and the per-job
opportunity score (both with an arbitrary stored keyword score in `[0, 100]`
— covering the default 50 — and with the composed keyword score). -/
theorem C2_score_bounds :
    (∀ w t, 0 ≤ computeFitScore w t ∧ computeFitScore w t ≤ 100) ∧
    (∀ pv cs p bv d, 0 ≤ computeSafetyScore pv cs p bv d ∧
      computeSafetyScore pv cs p bv d ≤ 100) ∧
    (∀ s sc now, 0 ≤ computeFreshnessScore s sc now ∧
      computeFreshnessScore s sc now ≤ 100) ∧
    (∀ d s r b, 0 ≤ keywordOpportunityScore d s r b ∧
      keywordOpportunityScore d s r b ≤ 100) ∧
    (∀ ks bv, 0 ≤ ks → ks ≤ 100 →
      0 ≤ jobOpportunityScore ks bv ∧ jobOpportunityScore ks bv ≤ 100) ∧
    (∀ d s r b bv,
      0 ≤ jobOpportunityScore (keywordOpportunityScore d s r b) bv ∧
      jobOpportunityScore (keywordOpportunityScore d s r b) bv ≤ 100) := by
  refine ⟨computeFitScore_bounds, computeSafetyScore_bounds,
    computeFreshnessScore_bounds, keywordOpportunityScore_bounds,
    fun ks bv h0 h1 => jobOpportunityScore_bounds ks bv h0 h1,
    fun d s r b bv => ?_⟩
  obtain ⟨hl, hu⟩ := keywordOpportunityScore_bounds d s r b
  exact jobOpportunityScore_bounds _ bv hl hu

/-- Witness for `C2_score_bounds` at concrete inputs (the default keyword
score 50 with a $100 budget). -/
theorem C2_score_bounds_witness :
    0 ≤ jobOpportunityScore 50 (some 100) ∧
      jobOpportunityScore 50 (some 100) ≤ 100 :=
  C2_score_bounds.2.2.2.2.1 50 (some 100) (by norm_num) (by norm_num)

/-- The tiered proposal penalty is monotone in the proposal count. -/
theorem proposalsPenalty_mono {p q : ℤ} (h : p ≤ q) :
    proposalsPenalty (some p) ≤ proposalsPenalty (some q) := by
  simp only [proposalsPenalty, PROPOSALS_DEAD_THRESHOLD,
    PROPOSALS_STALE_THRESHOLD, PROPOSALS_FRESH_MAX]
  split_ifs <;> first | (exfalso; omega) | norm_num

/-- C3: with the scrape timestamp held fixed, a larger parsed proposal count
never yields a larger Freshness Score. -/
theorem C3_freshness_monotone (s1 s2 : String) (scrapedAt : Option ℚ)
    (now : ℚ) (p1 p2 : ℤ)
    (h1 : parseIntValue s1 = some p1) (h2 : parseIntValue s2 = some p2)
    (hle : p1 ≤ p2) :
    computeFreshnessScore s2 scrapedAt now ≤
      computeFreshnessScore s1 scrapedAt now := by
  simp only [computeFreshnessScore, h1, h2]
  have hp := proposalsPenalty_mono hle
  apply round2_mono
  apply clamp_mono
  cases scrapedAt <;> simp <;> linarith

/-- Witness for `C3_freshness_monotone`: 40 proposals score no higher than
3 proposals. -/
theorem C3_freshness_monotone_witness :
    computeFreshnessScore "40" (some 10) 20 ≤
      computeFreshnessScore "3" (some 10) 20 :=
  C3_freshness_monotone "3" "40" (some 10) 20 3 40 (by decide) (by decide)
    (by norm_num)

/-- A digit-free character list yields no digit run. -/
theorem firstDigitRun_eq_none {l : List Char}
    (h : ∀ c ∈ l, c.isDigit = false) : firstDigitRun l = none := by
  induction l with
  | nil => rfl
  | cons c rest ih =>
      simp only [firstDigitRun, h c (by simp)]
      exact ih fun d hd => h d (by simp [hd])

/-- C10: a proposals string with no digits and no scrape timestamp scores
exactly 100. -/
theorem C10_unknown_is_fresh (s : String) (now : ℚ)
    (h : ∀ c ∈ s.data, c.isDigit = false) :
    computeFreshnessScore s none now = 100 := by
  have hp : parseIntValue s = none := by
    simp [parseIntValue, firstDigitRun_eq_none h]
  simp only [computeFreshnessScore, hp, proposalsPenalty]
  norm_num [clamp]
  exact round2_100

/-- Witness for `C10_unknown_is_fresh` on a non-numeric proposals string. -/
theorem C10_unknown_is_fresh_witness :
    computeFreshnessScore "unknown" none 500 = 100 :=
  C10_unknown_is_fresh "unknown" 500 (by decide)

/-! ## Stable key derivation (`orchestrator.py` lines 195-225)

The SHA-1 hex digest (`hashlib.sha1(...).hexdigest()`) is abstracted as the
`sha1hex` field of `Env` below; theorems assume only what the digest
guarantees (40 characters, none of them whitespace). -/

/-- Characters that end a `[^/?#]+` capture. -/
def isKeyStopChar (c : Char) : Bool := c = '/' || c = '?' || c = '#'

/-- `re.search(r"/jobs?/([^/?#]+)", ...)` restricted to a match starting at
the head of the list: `/job`, an optional `s`, `/`, then a non-empty capture
(the only way both the greedy and the backtracked alternative can fail here
is an empty capture or a literal mismatch). -/
def jobKeyAt (l : List Char) : Option (List Char) :=
  match l with
  | '/' :: 'j' :: 'o' :: 'b' :: 's' :: '/' :: r2 =>
      let cap := r2.takeWhile (fun c => !isKeyStopChar c)
      if cap.isEmpty then none else some cap
  | '/' :: 'j' :: 'o' :: 'b' :: '/' :: r2 =>
      let cap := r2.takeWhile (fun c => !isKeyStopChar c)
      if cap.isEmpty then none else some cap
  | _ => none

/-- Leftmost match of the capture group of `re.search(r"/jobs?/([^/?#]+)", url)`. -/
def jobUrlMatch : List Char → Option (List Char)
  | [] => none
  | c :: rest =>
      match jobKeyAt (c :: rest) with
      | some cap => some cap
      | none => jobUrlMatch rest

/-- Leftmost match of `re.search(r"~[A-Za-z0-9]+", url)` (the whole match,
tilde included). -/
def talentUrlMatch : List Char → Option (List Char)
  | [] => none
  | '~' :: rest =>
      let cap := rest.takeWhile Char.isAlphanum
      if cap.isEmpty then talentUrlMatch rest else some ('~' :: cap)
  | _ :: rest => talentUrlMatch rest

/-- `re.search(r"catalog/(\d+)", ...)` restricted to a match starting at the
head of the list. -/
def projectKeyAt (l : List Char) : Option (List Char) :=
  match l with
  | 'c' :: 'a' :: 't' :: 'a' :: 'l' :: 'o' :: 'g' :: '/' :: rest =>
      let cap := rest.takeWhile Char.isDigit
      if cap.isEmpty then none else some cap
  | _ => none

/-- Leftmost match of the capture group of `re.search(r"catalog/(\d+)", url)`. -/
def projectUrlMatch : List Char → Option (List Char)
  | [] => none
  | c :: rest =>
      match projectKeyAt (c :: rest) with
      | some cap => some cap
      | none => projectUrlMatch rest

/-- `re.sub(r"[^a-zA-Z0-9]+", "_", url)`: each maximal run of
non-alphanumeric characters becomes one underscore. -/
def slugify : List Char → List Char
  | [] => []
  | c :: rest =>
      if c.isAlphanum then c :: slugify rest
      else '_' :: slugify (rest.dropWhile (fun d => !d.isAlphanum))
termination_by l => l.length
decreasing_by
  all_goals
    have hd : (rest.dropWhile (fun d => !d.isAlphanum)).length ≤ rest.length :=
      (List.dropWhile_sublist _).length_le
    simp only [List.length_cons]
    omega

/-- Opaque library primitives of the ingestion pipeline (see the header).
`sha1hex` stands for `hashlib.sha1(·.encode()).hexdigest()` on text,
`fileSha1` for `_compute_file_hash` (the SHA-1 of a file's bytes), and
`parseDt` for `_parse_datetime` (ISO-8601 parsing, `None`-propagating). -/
structure Env where
  sha1hex : String → String
  fileSha1 : String → String
  parseDt : Option String → Option ℚ

/-- `derive_job_key`. -/
def deriveJobKey (env : Env) (url title keyword : String) : String :=
  if url ≠ "" then
    match jobUrlMatch url.data with
    | some cap => String.mk cap
    | none => "url_" ++ String.mk ((slugify url.data).take 120)
  else pyTake (env.sha1hex (title ++ "|" ++ keyword)) 20

/-- `derive_talent_key`. -/
def deriveTalentKey (env : Env) (url name keyword : String) : String :=
  if url ≠ "" then
    match talentUrlMatch url.data with
    | some cap => String.mk cap
    | none => "url_" ++ String.mk ((slugify url.data).take 120)
  else pyTake (env.sha1hex (name ++ "|" ++ keyword)) 20

/-- `derive_project_key`. -/
def deriveProjectKey (env : Env) (url title keyword : String) : String :=
  if url ≠ "" then
    match projectUrlMatch url.data with
    | some cap => String.mk cap
    | none => "url_" ++ String.mk ((slugify url.data).take 120)
  else pyTake (env.sha1hex (title ++ "|" ++ keyword)) 20

/-! ## Normalizer (`orchestrator.py` lines 169-181 and 1120-1268)

A raw row is an association list from (lowercased) column names to optional
string cells; `normalize_text` is the identity on string cells, so it does
not appear explicitly. -/

/-- A raw export row. -/
abbrev Row := List (String × Option String)

/-- A cell accepted by `pick_first` (present and not in
`(None, "", "nan", "None")`). -/
def usableCell : Option String → Bool
  | none => false
  | some s => !(s = "" || s = "nan" || s = "None")

/-- `pick_first` without its default: the first usable cell among the
candidate column names (callers supply their own default via `getD`). -/
def pickFirst (row : Row) : List String → Option String
  | [] => none
  | k :: rest =>
      match row.lookup k with
      | some v => if usableCell v then v else pickFirst row rest
      | none => pickFirst row rest

/-- The canonical job record produced by `_normalize_job_row`. -/
structure JobRow where
  jobKey : String
  keyword : String
  title : String
  description : String
  url : String
  budget : String
  budgetValue : Option ℚ
  clientSpend : Option ℚ
  paymentVerified : Bool
  proposals : Option String
  skills : String
  scrapedAt : Option ℚ
deriving DecidableEq

/-- The `signal_map` label/alias table of `_normalize_job_row`. -/
def signalMap : List (String × List String) :=
  [("job_availability", ["detail_job_availability"]),
   ("posted", ["detail_posted", "posted", "posted_date"]),
   ("activity_last_viewed", ["detail_activity_last_viewed"]),
   ("activity_interviewing", ["detail_activity_interviewing"]),
   ("activity_invites_sent", ["detail_activity_invites_sent"]),
   ("activity_unanswered_invites", ["detail_activity_unanswered_invites"]),
   ("activity_proposals", ["detail_activity_proposals"]),
   ("client_hire_rate", ["detail_client_hire_rate"]),
   ("client_jobs_posted", ["detail_client_jobs_posted"]),
   ("client_open_jobs", ["detail_client_open_jobs"]),
   ("client_member_since", ["detail_client_member_since"])]

/-- The non-empty `label: value` market-signal lines of a row. -/
def signalLines (row : Row) : List String :=
  signalMap.foldr
    (fun lm acc =>
      let v := pyStrip ((pickFirst row lm.2).getD "")
      if v = "" then acc else (lm.1 ++ ": " ++ v) :: acc)
    []

/-- The `.strip() or keyword` fallback applied to per-row keywords. -/
def keywordOr (v : Option String) (keyword : String) : String :=
  let k := pyStrip (v.getD keyword)
  if k = "" then keyword else k

/-- `_normalize_job_row`. -/
def normalizeJobRow (env : Env) (row : Row) (keyword : String) : JobRow :=
  let title := pyStrip ((pickFirst row ["title", "job_title"]).getD "Untitled job")
  let descriptionBase :=
    (pickFirst row ["description", "snippet", "summary", "detail_summary",
      "detail_description", "overview"]).getD ""
  let lines := signalLines row
  let description :=
    if lines.isEmpty then descriptionBase
    else pyStrip (descriptionBase ++ "\n\n[market_signals]\n"
      ++ String.intercalate "\n" lines)
  let url := pyStrip ((pickFirst row
    ["url", "job_url", "detail_job_url", "detail_url"]).getD "")
  let budget := pyStrip ((pickFirst row
    ["budget", "hourly_rate", "price", "payment"]).getD "")
  let recordKeyword :=
    keywordOr (pickFirst row ["keyword", "search_keyword", "query"]) keyword
  { jobKey := deriveJobKey env url title recordKeyword
  , keyword := recordKeyword
  , title := title
  , description := description
  , url := url
  , budget := budget
  , budgetValue := parseMoneyValue (some budget)
  , clientSpend := parseMoneyValue
      (pickFirst row ["client_spend", "spent", "client_total_spent"])
  , paymentVerified := parseBoolValue (pickFirst row
      ["payment_verified", "client_payment_verified", "is_payment_verified"])
  , proposals := pickFirst row ["proposals", "proposal_count", "bids"]
  , skills := (pickFirst row ["skills", "skill_tags", "tags"]).getD ""
  , scrapedAt := env.parseDt
      (pickFirst row ["scraped_at", "timestamp", "created_at"]) }

/-- The canonical provider record produced by `_normalize_talent_row`. -/
structure TalentRow where
  talentKey : String
  keyword : String
  name : String
  title : String
  description : String
  url : String
  hourlyRate : String
  hourlyRateValue : Option ℚ
  skills : String
  country : String
  rating : Option ℚ
  jobsCompleted : Option ℤ
  scrapedAt : Option ℚ
deriving DecidableEq

/-- `_normalize_talent_row`. -/
def normalizeTalentRow (env : Env) (row : Row) (keyword : String) : TalentRow :=
  let name := pyStrip ((pickFirst row ["name", "full_name"]).getD "")
  let title := pyStrip ((pickFirst row ["title", "headline"]).getD "")
  let url := pyStrip ((pickFirst row
    ["url", "profile_url", "detail_profile_url"]).getD "")
  let hourlyRate := (pickFirst row ["hourly_rate", "rate", "price"]).getD ""
  let recordKeyword :=
    keywordOr (pickFirst row ["keyword", "search_keyword"]) keyword
  { talentKey := deriveTalentKey env url
      (if name = "" then title else name) recordKeyword
  , keyword := recordKeyword
  , name := name
  , title := title
  , description :=
      (pickFirst row ["description", "overview", "bio", "summary"]).getD ""
  , url := url
  , hourlyRate := hourlyRate
  , hourlyRateValue := parseMoneyValue (some hourlyRate)
  , skills := (pickFirst row ["skills", "tags"]).getD ""
  , country := (pickFirst row ["country", "location"]).getD ""
  , rating := parseFloatValue (pickFirst row ["rating", "score"])
  , jobsCompleted :=
      (pickFirst row ["jobs_completed", "jobs"]).bind parseIntValue
  , scrapedAt := env.parseDt
      (pickFirst row ["scraped_at", "timestamp", "created_at"]) }

/-- The canonical catalog record produced by `_normalize_project_row`. -/
structure ProjectRow where
  projectKey : String
  keyword : String
  title : String
  description : String
  url : String
  category : String
  price : String
  priceValue : Option ℚ
  rating : Option ℚ
  sales : Option ℤ
  scrapedAt : Option ℚ
deriving DecidableEq

/-- `_normalize_project_row` (note: the source does not `.strip()` the
project title or price). -/
def normalizeProjectRow (env : Env) (row : Row) (keyword : String) :
    ProjectRow :=
  let title := (pickFirst row ["title", "project_title"]).getD "Untitled project"
  let url := pyStrip ((pickFirst row
    ["url", "project_url", "detail_project_url"]).getD "")
  let price := (pickFirst row ["price", "budget"]).getD ""
  let recordKeyword :=
    keywordOr (pickFirst row ["keyword", "search_keyword"]) keyword
  { projectKey := deriveProjectKey env url title recordKeyword
  , keyword := recordKeyword
  , title := title
  , description := (pickFirst row
      ["description", "summary", "detail_project_description"]).getD ""
  , url := url
  , category := (pickFirst row ["category", "service_category"]).getD ""
  , price := price
  , priceValue := parseMoneyValue (some price)
  , rating := parseFloatValue (pickFirst row ["rating", "score"])
  , sales := (pickFirst row ["sales", "orders"]).bind parseIntValue
  , scrapedAt := env.parseDt
      (pickFirst row ["scraped_at", "timestamp", "created_at"]) }

/-! ## Store tables and upserts (`orchestrator.py` lines 1270-1410)

Each table is an insertion-ordered association list keyed by the entity's
natural key, mirroring the unique-key columns of `jobs_raw`, `talent_raw`
and `projects_raw`.  `_set_if_changed` assigns a field exactly when it
differs, so the net post-state of an upsert is the new field values; the
embedding states that post-state directly. -/

/-- `dict[key] = value` on an insertion-ordered association list. -/
def assocSet {α : Type} (l : List (String × α)) (k : String) (v : α) :
    List (String × α) :=
  match l with
  | [] => [(k, v)]
  | (k', v') :: rest =>
      if k' = k then (k, v) :: rest else (k', v') :: assocSet rest k v

/-- The `unique_rows` deduplication loop: keep rows with a non-empty
stripped key, later occurrences of a key overwriting earlier ones. -/
def buildUniqueRows {α : Type} (key : α → String) (records : List α) :
    List (String × α) :=
  records.foldl
    (fun acc r =>
      let k := pyStrip (key r)
      if k = "" then acc else assocSet acc k r)
    []

/-- The `scraped_at` advance rule shared by the three upserts: prefer the
row's timestamp, else the stored one, else `utcnow()`; only move forward. -/
def upsertScrapedAt (old : Option ℚ) (rowTs : Option ℚ) (now : ℚ) : ℚ :=
  let newTs :=
    match rowTs with
    | some t => t
    | none => match old with | some o => o | none => now
  match old with
  | none => newTs
  | some o => if newTs > o then newTs else o

/-- A `jobs_raw` row. -/
structure JobRawRec where
  jobKey : String
  keyword : String
  title : String
  description : String
  url : String
  budget : String
  budgetValue : Option ℚ
  clientSpend : Option ℚ
  paymentVerified : Bool
  proposals : Option String
  skills : String
  sourceFile : String
  scrapedAt : Option ℚ
deriving DecidableEq

abbrev JobTable := List (String × JobRawRec)

/-- Post-state of one `_upsert_jobs` iteration for key `key`. -/
def applyJobRow (now : ℚ) (old : Option JobRawRec) (key : String)
    (row : JobRow) (sourceFile : String) : JobRawRec :=
  { jobKey := key
  , keyword := row.keyword
  , title := if row.title = "" then "Untitled job" else row.title
  , description := row.description
  , url := row.url
  , budget := row.budget
  , budgetValue := row.budgetValue
  , clientSpend := row.clientSpend
  , paymentVerified := row.paymentVerified
  , proposals := row.proposals
  , skills := row.skills
  , sourceFile := sourceFile
  , scrapedAt :=
      some (upsertScrapedAt (old.bind JobRawRec.scrapedAt) row.scrapedAt now) }

/-- `_upsert_jobs`. -/
def upsertJobs (now : ℚ) (db : JobTable) (records : List JobRow)
    (sourceFile : String) : JobTable :=
  (buildUniqueRows JobRow.jobKey records).foldl
    (fun acc kv =>
      assocSet acc kv.1 (applyJobRow now (acc.lookup kv.1) kv.1 kv.2 sourceFile))
    db

/-- A `talent_raw` row. -/
structure TalentRawRec where
  talentKey : String
  keyword : String
  name : String
  title : String
  description : String
  url : String
  hourlyRate : String
  hourlyRateValue : Option ℚ
  skills : String
  country : String
  rating : Option ℚ
  jobsCompleted : Option ℤ
  sourceFile : String
  scrapedAt : Option ℚ
deriving DecidableEq

abbrev TalentTable := List (String × TalentRawRec)

/-- Post-state of one `_upsert_talent` iteration. -/
def applyTalentRow (now : ℚ) (old : Option TalentRawRec) (key : String)
    (row : TalentRow) (sourceFile : String) : TalentRawRec :=
  { talentKey := key
  , keyword := row.keyword
  , name := row.name
  , title := row.title
  , description := row.description
  , url := row.url
  , hourlyRate := row.hourlyRate
  , hourlyRateValue := row.hourlyRateValue
  , skills := row.skills
  , country := row.country
  , rating := row.rating
  , jobsCompleted := row.jobsCompleted
  , sourceFile := sourceFile
  , scrapedAt :=
      some (upsertScrapedAt (old.bind TalentRawRec.scrapedAt) row.scrapedAt now) }

/-- `_upsert_talent`. -/
def upsertTalent (now : ℚ) (db : TalentTable) (records : List TalentRow)
    (sourceFile : String) : TalentTable :=
  (buildUniqueRows TalentRow.talentKey records).foldl
    (fun acc kv =>
      assocSet acc kv.1
        (applyTalentRow now (acc.lookup kv.1) kv.1 kv.2 sourceFile))
    db

/-- A `projects_raw` row. -/
structure ProjectRawRec where
  projectKey : String
  keyword : String
  title : String
  description : String
  url : String
  category : String
  price : String
  priceValue : Option ℚ
  rating : Option ℚ
  sales : Option ℤ
  sourceFile : String
  scrapedAt : Option ℚ
deriving DecidableEq

abbrev ProjectTable := List (String × ProjectRawRec)

/-- Post-state of one `_upsert_projects` iteration. -/
def applyProjectRow (now : ℚ) (old : Option ProjectRawRec) (key : String)
    (row : ProjectRow) (sourceFile : String) : ProjectRawRec :=
  { projectKey := key
  , keyword := row.keyword
  , title := row.title
  , description := row.description
  , url := row.url
  , category := row.category
  , price := row.price
  , priceValue := row.priceValue
  , rating := row.rating
  , sales := row.sales
  , sourceFile := sourceFile
  , scrapedAt :=
      some (upsertScrapedAt (old.bind ProjectRawRec.scrapedAt) row.scrapedAt now) }

/-- `_upsert_projects`. -/
def upsertProjects (now : ℚ) (db : ProjectTable) (records : List ProjectRow)
    (sourceFile : String) : ProjectTable :=
  (buildUniqueRows ProjectRow.projectKey records).foldl
    (fun acc kv =>
      assocSet acc kv.1
        (applyProjectRow now (acc.lookup kv.1) kv.1 kv.2 sourceFile))
    db

/-! ## C6: malformed rows are kept, not dropped -/

theorem dropWhile_eq_self_of_all_false {p : Char → Bool} {l : List Char}
    (h : ∀ c ∈ l, p c = false) : l.dropWhile p = l := by
  cases l with
  | nil => rfl
  | cons c rest => simp [List.dropWhile_cons, h c (by simp)]

theorem pyStrip_eq_self {s : String}
    (h : ∀ c ∈ s.data, c.isWhitespace = false) : pyStrip s = s := by
  unfold pyStrip
  rw [dropWhile_eq_self_of_all_false h,
    dropWhile_eq_self_of_all_false (by
      intro c hc
      exact h c (by simpa using hc)),
    List.reverse_reverse]

theorem lookup_assocSet {α : Type} (l : List (String × α)) (k : String)
    (v : α) : (assocSet l k v).lookup k = some v := by
  induction l with
  | nil => simp [assocSet]
  | cons kv rest ih =>
      obtain ⟨k', v'⟩ := kv
      by_cases h : k' = k
      · simp [assocSet, h]
      · simp only [assocSet, if_neg h, List.lookup_cons]
        have : (k == k') = false := by
          simp [Ne.symm h]
        simp [this, ih]

/-- The environment used by the concrete C6 inputs (the digest and datetime
parser are irrelevant to the counterexample, whose row carries a URL). -/
def envC6 : Env :=
  { sha1hex := fun _ => ""
  , fileSha1 := fun _ => ""
  , parseDt := fun _ => none }

/-- A raw job row carrying only a URL: no title or name can be produced
from it. -/
def rowC6 : Row := [("url", some "https://www.upwork.com/jobs/test_job_123")]

/-- C6 fails as stated: a raw row with no usable title is NOT dropped — the
Normalizer substitutes the fallback title `"Untitled job"` and `_upsert_jobs`
stores it as an entity record (the resulting table has one row, not zero). -/
theorem C6_counterexample :
    pickFirst rowC6 ["title", "job_title"] = none ∧
    (normalizeJobRow envC6 rowC6 "automation").title = "Untitled job" ∧
    (upsertJobs 0 [] [normalizeJobRow envC6 rowC6 "automation"] "f.csv").length
      = 1 := by
  refine ⟨by decide, by decide, by decide⟩

/-- Without a URL, the derived job key is the 20-character digest prefix:
it is non-empty and survives `.strip()` unchanged. -/
theorem deriveJobKey_no_url (env : Env)
    (hsha : ∀ s, (env.sha1hex s).data.length = 40)
    (hws : ∀ s, ∀ c ∈ (env.sha1hex s).data, c.isWhitespace = false)
    (t k : String) :
    deriveJobKey env "" t k ≠ "" ∧
      pyStrip (deriveJobKey env "" t k) = deriveJobKey env "" t k := by
  have hkey : deriveJobKey env "" t k = pyTake (env.sha1hex (t ++ "|" ++ k)) 20 := by
    simp [deriveJobKey]
  constructor
  · intro hcontr
    have hlen : (deriveJobKey env "" t k).data.length = 0 := by
      rw [hcontr]
      rfl
    rw [hkey] at hlen
    have h40 := hsha (t ++ "|" ++ k)
    simp only [pyTake, List.length_take] at hlen
    omega
  · refine pyStrip_eq_self ?_
    intro c hc
    rw [hkey] at hc
    exact hws (t ++ "|" ++ k) c
      (List.take_subset 20 _ (by simpa [pyTake] using hc))

/-- Upserting a single row whose stripped key is non-empty stores exactly the
applied record under that key. -/
theorem upsertJobs_singleton (now : ℚ) (db : JobTable) (r : JobRow)
    (src : String) (h : pyStrip r.jobKey ≠ "") :
    (upsertJobs now db [r] src).lookup (pyStrip r.jobKey) =
      some (applyJobRow now (db.lookup (pyStrip r.jobKey))
        (pyStrip r.jobKey) r src) := by
  simp only [upsertJobs, buildUniqueRows, List.foldl, if_neg h, assocSet]
  exact lookup_assocSet db _ _

/-- C6 as amended: a row that cannot produce a usable title/name is kept,
not dropped.  For job rows without a URL the Normalizer substitutes the
fallback title `"Untitled job"`, derives a non-empty 20-character digest key,
and the upsert stores the row; every step of the embedding is a total
function, so no error is raised and ingestion cannot abort on the row.
(`hsha`/`hws` state what the SHA-1 hexdigest guarantees: 40 characters, none
of them whitespace.) -/
theorem C6_amended_rows_kept (env : Env)
    (hsha : ∀ s, (env.sha1hex s).data.length = 40)
    (hws : ∀ s, ∀ c ∈ (env.sha1hex s).data, c.isWhitespace = false)
    (row : Row) (kw src : String) (now : ℚ) (db : JobTable)
    (hnotitle : pickFirst row ["title", "job_title"] = none)
    (hnourl : (normalizeJobRow env row kw).url = "") :
    (normalizeJobRow env row kw).title = "Untitled job" ∧
    (normalizeJobRow env row kw).jobKey ≠ "" ∧
    (upsertJobs now db [normalizeJobRow env row kw] src).lookup
      (pyStrip (normalizeJobRow env row kw).jobKey) ≠ none := by
  have htitle : (normalizeJobRow env row kw).title = "Untitled job" := by
    simp only [normalizeJobRow, hnotitle, Option.getD]
    decide
  have hkeyeq : (normalizeJobRow env row kw).jobKey =
      deriveJobKey env (normalizeJobRow env row kw).url
        (normalizeJobRow env row kw).title
        (normalizeJobRow env row kw).keyword := rfl
  rw [hnourl] at hkeyeq
  obtain ⟨hne, hstrip⟩ := deriveJobKey_no_url env hsha hws
    (normalizeJobRow env row kw).title (normalizeJobRow env row kw).keyword
  refine ⟨htitle, by rw [hkeyeq]; exact hne, ?_⟩
  have hkeyne : pyStrip (normalizeJobRow env row kw).jobKey ≠ "" := by
    rw [hkeyeq, hstrip]
    exact hne
  rw [upsertJobs_singleton now db _ src hkeyne]
  simp

/-- The concrete environment of the C6 amended witness: a constant
40-character digest. -/
def envC6w : Env :=
  { sha1hex := fun _ => "0123456789abcdef0123456789abcdef01234567"
  , fileSha1 := fun _ => ""
  , parseDt := fun _ => none }

/-- Witness for `C6_amended_rows_kept`: the empty raw row (no title, no URL)
is still stored. -/
theorem C6_amended_rows_kept_witness :
    (normalizeJobRow envC6w [] "k").title = "Untitled job" ∧
    (normalizeJobRow envC6w [] "k").jobKey ≠ "" ∧
    (upsertJobs 0 [] [normalizeJobRow envC6w [] "k"] "s").lookup
      (pyStrip (normalizeJobRow envC6w [] "k").jobKey) ≠ none :=
  C6_amended_rows_kept envC6w (fun _ => rfl)
    (fun _ c hc =>
      (by decide :
        ∀ c ∈ ("0123456789abcdef0123456789abcdef01234567" : String).data,
          c.isWhitespace = false) c hc)
    [] "k" "s" 0 [] rfl rfl

/-! ## Per-job rescoring (`orchestrator.py` lines 650-756 and 917-939)

`JobOpportunity.reasons` is stored as a JSON string; `ReasonsData` models
its parse: the rule pass writes a JSON array, the LLM decision engine writes
an object whose `llm_action` field (a string, truthy iff non-empty) marks an
external judgment, and `unparsable` covers text on which `json.loads`
raises (the `except: pass` then falls through to the rule overwrite). -/

inductive ReasonsData where
  | ruleList : List String → ReasonsData
  | llmDict : Option String → ReasonsData
  | unparsable : ReasonsData
deriving DecidableEq

/-- `entry.reasons` is non-empty, parses to a dict, and its `llm_action`
value is truthy — the guard of the LLM-skip branch (`none` models a
`NULL`/empty column). -/
def hasLlmAction : Option ReasonsData → Bool
  | some (ReasonsData.llmDict (some a)) => a != ""
  | _ => false

/-- A `job_opportunities` row. -/
structure OpportunityRec where
  jobKey : String
  title : String
  keyword : String
  opportunityScore : ℚ
  safetyScore : ℚ
  fitScore : ℚ
  applyNow : Bool
  reasons : Option ReasonsData
  lastUpdated : ℚ
deriving DecidableEq

/-- The four per-job scores computed by `_refresh_job_opportunities`. -/
structure JobScores where
  opportunity : ℚ
  safety : ℚ
  fit : ℚ
  freshness : ℚ
deriving DecidableEq

/-- `keyword_scores.get(job.keyword or "", 50.0)`. -/
def lookupKeywordScore (scores : List (String × ℚ)) (k : String) : ℚ :=
  (scores.lookup k).getD 50

/-- Python `s or default` for an optional string column (`None` and `""` are
falsy). -/
def orDefault (o : Option String) (d : String) : String :=
  match o with
  | none => d
  | some s => if s = "" then d else s

/-- The scores computed for one job, parameterized by the fit-weight table
and the stored keyword recommendation scores. -/
def scoreJob (weights : List (String × ℚ)) (kwScores : List (String × ℚ))
    (now : ℚ) (job : JobRawRec) : JobScores :=
  { opportunity := jobOpportunityScore
      (lookupKeywordScore kwScores job.keyword) job.budgetValue
  , safety := computeSafetyScore job.paymentVerified job.clientSpend
      (job.proposals.bind parseIntValue) job.budgetValue job.description
  , fit := computeFitScore weights (String.intercalate " "
      [job.title, job.description, job.skills, job.keyword])
  , freshness := computeFreshnessScore (orDefault job.proposals "0")
      job.scrapedAt now }

/-- `is_dead`: the parsed proposal count has reached the 50-proposal
"likely filled" threshold. -/
def isDeadJob (job : JobRawRec) : Bool :=
  match job.proposals.bind parseIntValue with
  | some n => decide (n ≥ PROPOSALS_DEAD_THRESHOLD)
  | none => false

/-- `is_stale`: the parsed proposal count has reached the 30-proposal
threshold. -/
def isStaleJob (job : JobRawRec) : Bool :=
  match job.proposals.bind parseIntValue with
  | some n => decide (n ≥ PROPOSALS_STALE_THRESHOLD)
  | none => false

/-- The `apply_now` rule of `_refresh_job_opportunities`. -/
def applyNowFlag (s : JobScores) (dead : Bool) : Bool :=
  decide (s.safety ≥ 70) && decide (s.fit ≥ 60) &&
    decide (s.opportunity ≥ 55) && decide (s.freshness ≥ 50) && !dead

/-- `_build_job_reasons`. -/
def buildJobReasons (opportunityScore safetyScore fitScore : ℚ)
    (applyNow : Bool) : List String :=
  (if opportunityScore ≥ 70 then ["HIGH_OPPORTUNITY"] else []) ++
  (if safetyScore ≥ 70 then ["SAFE_CLIENT"]
   else if safetyScore < 50 then ["AVOID_RISK"]
   else ["REVIEW_REQUIRED"]) ++
  (if fitScore ≥ 70 then ["STRONG_AI_DATA_FIT"]
   else if fitScore ≥ 55 then ["PARTIAL_AI_DATA_FIT"]
   else []) ++
  (if applyNow then ["APPLY_NOW"] else [])

/-- The freshness note appended for dead jobs. -/
def deadReasonNote : String := "⚠️ 50+ proposals — iş muhtemelen dolmuş"

/-- The freshness note appended for stale jobs. -/
def staleReasonNote : String := "⏳ 30+ proposals — rekabet yüksek"

/-- One iteration of the `_refresh_job_opportunities` loop: the stored
opportunity record after processing `job` against the existing `entry`
(`none` when no record exists yet).  When the entry carries an LLM action,
only `apply_now` (forced false for dead jobs) and `last_updated` change. -/
def refreshJobStep (weights kwScores : List (String × ℚ)) (now : ℚ)
    (job : JobRawRec) (entry : Option OpportunityRec) : OpportunityRec :=
  let s := scoreJob weights kwScores now job
  let dead := isDeadJob job
  let stale := isStaleJob job
  let applyNow := applyNowFlag s dead
  let reasons := buildJobReasons s.opportunity s.safety s.fit applyNow
    ++ (if dead then [deadReasonNote]
        else if stale then [staleReasonNote] else [])
  let fresh : OpportunityRec :=
    { jobKey := job.jobKey
    , title := if job.title = "" then "Untitled job" else job.title
    , keyword := if job.keyword = "" then "general" else job.keyword
    , opportunityScore := s.opportunity
    , safetyScore := s.safety
    , fitScore := s.fit
    , applyNow := applyNow
    , reasons := some (ReasonsData.ruleList reasons)
    , lastUpdated := now }
  match entry with
  | some e =>
      if hasLlmAction e.reasons then
        { e with applyNow := if dead then false else e.applyNow
               , lastUpdated := now }
      else { fresh with jobKey := e.jobKey }
  | none => fresh

/-- C4: for a job scored by the rule-based pass (no LLM action stored on its
record) whose proposal count parses to `n`, the stored apply-now flag is true
exactly when safety ≥ 70, fit ≥ 60, opportunity ≥ 55, freshness ≥ 50 and
`n` is below the 50-proposal "likely filled" threshold. -/
theorem C4_apply_now_rule (weights kwScores : List (String × ℚ)) (now : ℚ)
    (job : JobRawRec) (entry : Option OpportunityRec) (n : ℤ)
    (hguard : hasLlmAction (entry.bind OpportunityRec.reasons) = false)
    (hp : job.proposals.bind parseIntValue = some n) :
    (refreshJobStep weights kwScores now job entry).applyNow = true ↔
      (70 ≤ (scoreJob weights kwScores now job).safety ∧
       60 ≤ (scoreJob weights kwScores now job).fit ∧
       55 ≤ (scoreJob weights kwScores now job).opportunity ∧
       50 ≤ (scoreJob weights kwScores now job).freshness ∧
       n < 50) := by
  have hdead : isDeadJob job = decide (n ≥ PROPOSALS_DEAD_THRESHOLD) := by
    simp [isDeadJob, hp]
  cases entry with
  | none =>
      simp only [refreshJobStep, applyNowFlag, hdead,
        PROPOSALS_DEAD_THRESHOLD]
      simp only [Bool.and_eq_true, decide_eq_true_eq, Bool.not_eq_true',
        decide_eq_false_iff_not, not_le, ge_iff_le, and_assoc]
  | some e =>
      have hllm : hasLlmAction e.reasons = false := by simpa using hguard
      simp only [refreshJobStep, hllm, Bool.false_eq_true, if_false,
        applyNowFlag, hdead, PROPOSALS_DEAD_THRESHOLD]
      simp only [Bool.and_eq_true, decide_eq_true_eq, Bool.not_eq_true',
        decide_eq_false_iff_not, not_le, ge_iff_le, and_assoc]

/-- The concrete job of the C4 witness: 3 proposals, nothing else set. -/
def jobC4w : JobRawRec :=
  { jobKey := "j1", keyword := "k", title := "t", description := ""
  , url := "", budget := "", budgetValue := none, clientSpend := none
  , paymentVerified := false, proposals := some "3", skills := ""
  , sourceFile := "", scrapedAt := none }

/-- Witness for `C4_apply_now_rule` at a fresh record with 3 proposals. -/
theorem C4_apply_now_rule_witness :
    (refreshJobStep [] [] 0 jobC4w none).applyNow = true ↔
      (70 ≤ (scoreJob [] [] 0 jobC4w).safety ∧
       60 ≤ (scoreJob [] [] 0 jobC4w).fit ∧
       55 ≤ (scoreJob [] [] 0 jobC4w).opportunity ∧
       50 ≤ (scoreJob [] [] 0 jobC4w).freshness ∧
       (3 : ℤ) < 50) :=
  C4_apply_now_rule [] [] 0 jobC4w none 3 rfl rfl

/-- C5: once an opportunity record carries an LLM action, a rule-only
rescoring pass leaves its scores, reasons, title and keyword (hence the
qualitative action stored inside the reasons) unchanged, never flips
apply-now from false to true, and always forces apply-now to false once the
parsed proposal count reaches the 50-proposal threshold. -/
theorem C5_llm_non_regression (weights kwScores : List (String × ℚ))
    (now : ℚ) (job : JobRawRec) (e : OpportunityRec)
    (hllm : hasLlmAction e.reasons = true) :
    (refreshJobStep weights kwScores now job (some e)).opportunityScore
        = e.opportunityScore ∧
    (refreshJobStep weights kwScores now job (some e)).safetyScore
        = e.safetyScore ∧
    (refreshJobStep weights kwScores now job (some e)).fitScore
        = e.fitScore ∧
    (refreshJobStep weights kwScores now job (some e)).reasons = e.reasons ∧
    (refreshJobStep weights kwScores now job (some e)).title = e.title ∧
    (refreshJobStep weights kwScores now job (some e)).keyword = e.keyword ∧
    ((refreshJobStep weights kwScores now job (some e)).applyNow = true →
      e.applyNow = true) ∧
    (∀ n : ℤ, job.proposals.bind parseIntValue = some n → 50 ≤ n →
      (refreshJobStep weights kwScores now job (some e)).applyNow = false) := by
  have hstep : refreshJobStep weights kwScores now job (some e) =
      { e with applyNow := if isDeadJob job then false else e.applyNow
             , lastUpdated := now } := by
    simp [refreshJobStep, hllm]
  rw [hstep]
  refine ⟨rfl, rfl, rfl, rfl, rfl, rfl, ?_, ?_⟩
  · intro h
    by_cases hd : isDeadJob job = true
    · simp [hd] at h
    · simp only [Bool.not_eq_true] at hd
      simpa [hd] using h
  · intro n hp hn
    have hd : isDeadJob job = true := by
      simp [isDeadJob, hp, PROPOSALS_DEAD_THRESHOLD]
      omega
    simp [hd]

/-- The concrete LLM-classified record of the C5 witness. -/
def entryC5w : OpportunityRec :=
  { jobKey := "j1", title := "T", keyword := "k", opportunityScore := 90
  , safetyScore := 80, fitScore := 70, applyNow := true
  , reasons := some (ReasonsData.llmDict (some "APPLY")), lastUpdated := 0 }

/-- The concrete dead job (60 proposals) of the C5 witness. -/
def jobC5w : JobRawRec :=
  { jobKey := "j1", keyword := "k", title := "T", description := ""
  , url := "", budget := "", budgetValue := none, clientSpend := none
  , paymentVerified := false, proposals := some "60", skills := ""
  , sourceFile := "", scrapedAt := none }

/-- Witness for `C5_llm_non_regression`: a 60-proposal job keeps the LLM
reasons and scores but has apply-now forced to false. -/
theorem C5_llm_non_regression_witness :
    (refreshJobStep [] [] 1 jobC5w (some entryC5w)).reasons = entryC5w.reasons ∧
    (refreshJobStep [] [] 1 jobC5w (some entryC5w)).opportunityScore
        = entryC5w.opportunityScore ∧
    (refreshJobStep [] [] 1 jobC5w (some entryC5w)).applyNow = false := by
  have h := C5_llm_non_regression [] [] 1 jobC5w entryC5w rfl
  exact ⟨h.2.2.2.1, h.1, h.2.2.2.2.2.2.2 60 rfl (by norm_num)⟩

/-! ## File metadata helpers (`orchestrator.py` lines 228-262) -/

/-- `re.fullmatch(r"\d+", token)` (non-empty all-digit token). -/
def isDigitRun (l : List Char) : Bool := !l.isEmpty && l.all Char.isDigit

/-- `re.fullmatch(r"\d{2}-\d{2}-\d{2}", token)`. -/
def isDatePattern (l : List Char) : Bool :=
  match l with
  | [a, b, '-', c, d, '-', e, f] =>
      a.isDigit && b.isDigit && c.isDigit && d.isDigit && e.isDigit && f.isDigit
  | _ => false

/-- `re.sub(r"_[0-9]{2}-[0-9]{2}-[0-9]{2}$", "", parent)`. -/
def stripDateSuffix (s : String) : String :=
  match s.data.reverse with
  | f :: e :: '-' :: d :: c :: '-' :: b :: a :: '_' :: rest =>
      if a.isDigit && b.isDigit && c.isDigit && d.isDigit && e.isDigit
          && f.isDigit
      then String.mk rest.reverse else s
  | _ => s

/-- `re.sub(r"_\d{8,}$", "", parent)`. -/
def stripLongDigitSuffix (s : String) : String :=
  let r := s.data.reverse
  let ds := r.takeWhile Char.isDigit
  match r.drop ds.length with
  | '_' :: rest => if ds.length ≥ 8 then String.mk rest.reverse else s
  | _ => s

/-- `infer_keyword_from_path` over the path's stem and parent-directory
name (the only pieces of the `Path` it reads). -/
def inferKeywordFromPath (stem parentName : String) : String :=
  let tokens := ((pyLower stem).splitOn "_").filter (fun t => t != "")
  let ignore : List String :=
    ["upwork", "scrape", "jobs", "job", "talent", "projects", "project", "run"]
  let tokens := tokens.filter (fun t => !ignore.contains t)
  let cleaned := tokens.filter
    (fun t => !isDigitRun t.data && !isDatePattern t.data)
  if !cleaned.isEmpty then String.intercalate " " (cleaned.take 6)
  else
    let parent := stripDateSuffix parentName
    let parent := stripLongDigitSuffix parent
    let parent := pyStrip (parent.replace "_" " ")
    if parent = "" then "general" else parent

/-- `detect_dataset_from_filename`. -/
def detectDataset (name : String) : String :=
  let n := pyLower name
  if containsSub n "jobs" then "jobs"
  else if containsSub n "talent" then "talent"
  else if containsSub n "project" then "projects"
  else if containsSub n "scrape" then "mixed"
  else "mixed"

/-! ## Keyword metrics (`orchestrator.py` lines 574-648) -/

/-- A `keyword_metrics` row. -/
structure KeywordMetricRec where
  keyword : String
  demand : ℕ
  supply : ℕ
  gapRatio : ℚ
  budgetAvg : ℚ
  competitionInverse : ℚ
  trendScore : ℚ
  opportunityScore : ℚ
  recommendedPriority : String
  lastUpdated : ℚ
deriving DecidableEq

/-- A `keyword_recommendations` row. -/
structure KeywordRecommendationRec where
  keyword : String
  recommendedPriority : String
  opportunityScore : ℚ
  demand : ℕ
  supply : ℕ
  gapRatio : ℚ
  reasonCodes : List String
  lastUpdated : ℚ
deriving DecidableEq

/-- The metric and recommendation rows `_refresh_keyword_metric` stores for
one keyword, computed from the keyword's job rows and talent count
(`now` stands for both `refreshed_at` and the `datetime.utcnow()` used for
the 7-day trend window). -/
def keywordMetricFor (now : ℚ) (keyword : String) (jobs : List JobRawRec)
    (talentCount : ℕ) : KeywordMetricRec × KeywordRecommendationRec :=
  let demand := jobs.length
  let supply := talentCount
  let gapRatio : ℚ := (demand : ℚ) / ((max supply 1 : ℕ) : ℚ)
  let budgets := jobs.filterMap JobRawRec.budgetValue
  let budgetAvg := budgetAverage budgets
  let competitionInverse := clamp (100 - min 90 ((supply : ℚ) * 4))
  let recentJobs := (jobs.filter (fun j =>
    match j.scrapedAt with
    | some t => decide (t ≥ now - 168)
    | none => false)).length
  let trendScore := clamp (((recentJobs : ℚ) + 1)
    / (((demand - recentJobs : ℕ) : ℚ) + 1) * 35)
  let opportunityScore := keywordOpportunityScore demand supply recentJobs budgetAvg
  let priority := scorePriority opportunityScore
  let reasons :=
    (if demand ≥ 20 then ["HIGH_DEMAND"] else []) ++
    (if gapRatio ≥ 2 then ["SUPPLY_GAP"] else []) ++
    (if budgetAvg ≥ 500 then ["HIGH_BUDGET"] else []) ++
    (if competitionInverse ≥ 70 then ["LOW_COMPETITION"] else []) ++
    (if trendScore ≥ 60 then ["RISING_TREND"] else [])
  let reasons := if reasons.isEmpty then ["BASELINE_SIGNAL"] else reasons
  ({ keyword := keyword
   , demand := demand
   , supply := supply
   , gapRatio := round4 gapRatio
   , budgetAvg := round2 budgetAvg
   , competitionInverse := round2 competitionInverse
   , trendScore := round2 trendScore
   , opportunityScore := opportunityScore
   , recommendedPriority := priority
   , lastUpdated := now },
   { keyword := keyword
   , recommendedPriority := priority
   , opportunityScore := opportunityScore
   , demand := demand
   , supply := supply
   , gapRatio := round4 gapRatio
   , reasonCodes := reasons
   , lastUpdated := now })

/-! ## Rule-based drafts (`orchestrator.py` lines 941-981) -/

/-- A `proposal_drafts` row. -/
structure DraftRec where
  coverLetterDraft : String
  hookPoints : List String
  cautionNotes : List String
  updatedAt : ℚ
deriving DecidableEq

/-- Python `f"{q:.1f}"` for the non-negative scores that reach it. -/
def formatTenths (q : ℚ) : String :=
  let n := round (q * 10)
  toString (n / 10) ++ "." ++ toString (n % 10)

/-- `_build_rule_based_draft`. -/
def buildRuleBasedDraft (job : JobRawRec) (fitScore safetyScore : ℚ)
    (now : ℚ) : DraftRec :=
  let textBlob := pyLower (String.intercalate " "
    [job.title, job.description, job.skills])
  let hooks := ((FIT_TERM_WEIGHTS.map Prod.fst).filter
    (fun term => containsSub textBlob term)).take 5
  let hooks := if hooks.isEmpty then ["data analysis", "python", "dashboarding"]
    else hooks
  let cautions :=
    (if safetyScore < 70 then ["Client requires manual review before applying."]
     else []) ++
    (match job.proposals.bind parseIntValue with
     | some n =>
         if n ≠ 0 ∧ 50 < n
         then ["High proposal volume; personalize first paragraph."] else []
     | none => []) ++
    (if job.budgetValue.getD 0 < 30
     then ["Low budget signal; verify scope before submitting."] else [])
  let greeting := "Hello,"
  let opening := "I can help deliver this "
    ++ (if job.title = "" then "project" else job.title)
    ++ " with measurable outcomes in AI/data workflows."
  let valueLine := "My strongest overlap with your scope: "
    ++ String.intercalate ", " (hooks.take 3)
    ++ ". I focus on production-grade Python + analytics delivery."
  let closeLine :=
    "If useful, I can send a short execution plan with milestones and acceptance criteria."
  let fitNote := "(Fit score: " ++ formatTenths fitScore ++ "/100)"
  { coverLetterDraft := String.intercalate "\n\n"
      [greeting, opening, valueLine, closeLine, fitNote]
  , hookPoints := hooks
  , cautionNotes := cautions
  , updatedAt := now }

/-! ## The Canonical Store and the refresh pass
(`orchestrator.py` lines 404-485, 551-756, 1440-1448) -/

/-- An `ingested_files` row. -/
structure IngestedFileRec where
  filePath : String
  fileHash : String
  fileType : String
  dataset : String
  keyword : String
  rowCount : ℕ
  lastModifiedAt : ℚ
  ingestedAt : ℚ
deriving DecidableEq

/-- The Canonical Store: every table of the relational datastore the
orchestrator touches.  `events` keeps `(event_type, created_at)` per
`PipelineEvent`; the JSON payload text of an event is write-only audit data
read by no claim and is not modelled. -/
structure Store where
  ingested : List (String × IngestedFileRec)
  jobs : JobTable
  talent : TalentTable
  projects : ProjectTable
  metrics : List (String × KeywordMetricRec)
  recommendations : List (String × KeywordRecommendationRec)
  opportunities : List (String × OpportunityRec)
  drafts : List (String × DraftRec)
  events : List (String × ℚ)
deriving DecidableEq

/-- The `_refresh_job_opportunities` loop over every job row: updates the
opportunity table through `refreshJobStep` and, except on the LLM-skip
branch (whose `continue` also skips the draft), regenerates the draft. -/
def refreshJobOpportunities (weights : List (String × ℚ)) (now : ℚ)
    (jobs : JobTable) (recs : List (String × KeywordRecommendationRec))
    (opps : List (String × OpportunityRec))
    (drafts : List (String × DraftRec)) :
    List (String × OpportunityRec) × List (String × DraftRec) :=
  let kwScores := recs.map (fun kv => (kv.1, kv.2.opportunityScore))
  jobs.foldl
    (fun acc kv =>
      let job := kv.2
      let entry := acc.1.lookup job.jobKey
      let newEntry := refreshJobStep weights kwScores now job entry
      let skipDraft :=
        match entry with
        | some e => hasLlmAction e.reasons
        | none => false
      if skipDraft then (assocSet acc.1 job.jobKey newEntry, acc.2)
      else
        let s := scoreJob weights kwScores now job
        (assocSet acc.1 job.jobKey newEntry,
         assocSet acc.2 job.jobKey (buildRuleBasedDraft job s.fit s.safety now)))
    (opps, drafts)

/-- `refresh_metrics_and_opportunities`: recompute every keyword metric and
recommendation (for the distinct non-empty keywords of the job and talent
tables), then refresh all job opportunities.  Only the derived tables
change. -/
def refreshMetricsAndOpportunities (weights : List (String × ℚ)) (now : ℚ)
    (s : Store) : Store :=
  let keywords := (((s.jobs.map (fun kv => kv.2.keyword))
    ++ (s.talent.map (fun kv => kv.2.keyword))).filter
      (fun k => k != "")).dedup
  let mr := keywords.foldl
    (fun acc k =>
      let jobsK := (s.jobs.filter (fun kv => kv.2.keyword == k)).map Prod.snd
      let talentK := (s.talent.filter (fun kv => kv.2.keyword == k)).length
      let m := keywordMetricFor now k jobsK talentK
      (assocSet acc.1 k m.1, assocSet acc.2 k m.2))
    (s.metrics, s.recommendations)
  let od := refreshJobOpportunities weights now s.jobs mr.2
    s.opportunities s.drafts
  { s with metrics := mr.1, recommendations := mr.2
         , opportunities := od.1, drafts := od.2 }

/-! ## The Ingestion Scanner (`orchestrator.py` lines 404-485) -/

/-- The pieces of a file the scanner reads: path, `p.name`, `p.stem`,
parent-directory name, `p.suffix`, byte content and mtime. -/
structure FileInfo where
  path : String
  name : String
  stem : String
  parentName : String
  ext : String
  content : String
  mtime : ℚ
deriving DecidableEq

/-- The result of `_parse_file`: the path-inferred keyword and the
already-normalized rows.  The CSV/JSON readers themselves are abstracted as
a `parse : FileInfo → ParsedFile` parameter (their per-row output is the
Normalizer of the previous section); the scanner theorems hold for every
parser. -/
structure ParsedFile where
  keyword : String
  jobs : List JobRow
  talent : List TalentRow
  projects : List ProjectRow
deriving DecidableEq

/-- `suffix.lower().lstrip(".")`. -/
def stripExtDot (ext : String) : String :=
  String.mk ((pyLower ext).data.dropWhile (fun c => c = '.'))

/-- Ingest one changed or new file: upsert its rows and write the
`IngestedFileRecord` (for a new record, `ingested_at` is the column default
`utcnow`). -/
def processFile (env : Env) (parse : FileInfo → ParsedFile) (now : ℚ)
    (store : Store) (f : FileInfo) : Store :=
  let parsed := parse f
  let jobs' := if parsed.jobs.isEmpty then store.jobs
    else upsertJobs now store.jobs parsed.jobs f.path
  let talent' := if parsed.talent.isEmpty then store.talent
    else upsertTalent now store.talent parsed.talent f.path
  let projects' := if parsed.projects.isEmpty then store.projects
    else upsertProjects now store.projects parsed.projects f.path
  let rec' : IngestedFileRec :=
    { filePath := f.path
    , fileHash := env.fileSha1 f.content
    , fileType := stripExtDot f.ext
    , dataset := detectDataset f.name
    , keyword := if parsed.keyword = ""
        then inferKeywordFromPath f.stem f.parentName else parsed.keyword
    , rowCount := parsed.jobs.length + parsed.talent.length
        + parsed.projects.length
    , lastModifiedAt := f.mtime
    , ingestedAt := now }
  { store with jobs := jobs', talent := talent', projects := projects'
             , ingested := assocSet store.ingested f.path rec' }

/-- One iteration of the scan loop: hash the file, skip it when the stored
record carries the same hash, otherwise ingest it, counting new and updated
files. -/
def scanStep (env : Env) (parse : FileInfo → ParsedFile) (now : ℚ)
    (acc : Store × ℕ × ℕ × ℕ) (f : FileInfo) : Store × ℕ × ℕ × ℕ :=
  let store := acc.1
  let scanned := acc.2.1
  let created := acc.2.2.1
  let updated := acc.2.2.2
  match store.ingested.lookup f.path with
  | some rec =>
      if rec.fileHash = env.fileSha1 f.content
      then (store, scanned + 1, created, updated)
      else (processFile env parse now store f, scanned + 1, created, updated + 1)
  | none => (processFile env parse now store f, scanned + 1, created + 1, updated)

/-- `scan(rootDir)`'s result counters. -/
structure ScanResult where
  scannedFiles : ℕ
  newFiles : ℕ
  updatedFiles : ℕ
deriving DecidableEq

/-- `scan_and_ingest`: filter to `.csv`/`.json` files, run the scan loop,
refresh metrics and opportunities once, and log one `ingest_scan` event. -/
def scanAndIngest (env : Env) (parse : FileInfo → ParsedFile)
    (weights : List (String × ℚ)) (now : ℚ) (store : Store)
    (files : List FileInfo) : Store × ScanResult :=
  let files' := files.filter
    (fun f => pyLower f.ext == ".csv" || pyLower f.ext == ".json")
  let r := files'.foldl (scanStep env parse now) (store, 0, 0, 0)
  let s2 := refreshMetricsAndOpportunities weights now r.1
  let s3 := { s2 with events := ("ingest_scan", now) :: s2.events }
  (s3, { scannedFiles := r.2.1, newFiles := r.2.2.1, updatedFiles := r.2.2.2 })

/-! ## C1: re-scanning an unchanged tree is a no-op -/

/-- The store's file record for `f` matches the file's current content
hash — the condition under which the scanner skips `f`. -/
def upToDate (env : Env) (s : Store) (f : FileInfo) : Prop :=
  ∃ rec, s.ingested.lookup f.path = some rec ∧
    rec.fileHash = env.fileSha1 f.content

theorem lookup_assocSet_ne {α : Type} (l : List (String × α)) {k k' : String}
    (v : α) (h : k ≠ k') : (assocSet l k' v).lookup k = l.lookup k := by
  induction l with
  | nil => simp [assocSet, List.lookup, beq_false_of_ne h]
  | cons kv rest ih =>
      obtain ⟨k2, v2⟩ := kv
      by_cases h2 : k2 = k'
      · subst h2
        simp [assocSet, List.lookup, beq_false_of_ne h]
      · simp only [assocSet, if_neg h2, List.lookup_cons, ih]

theorem scanStep_skip (env : Env) (parse : FileInfo → ParsedFile) (now : ℚ)
    (acc : Store × ℕ × ℕ × ℕ) (f : FileInfo) (h : upToDate env acc.1 f) :
    scanStep env parse now acc f = (acc.1, acc.2.1 + 1, acc.2.2.1, acc.2.2.2) := by
  obtain ⟨rec, hl, hh⟩ := h
  simp [scanStep, hl, hh]

theorem foldl_scan_skip (env : Env) (parse : FileInfo → ParsedFile) (now : ℚ)
    (files : List FileInfo) :
    ∀ acc : Store × ℕ × ℕ × ℕ, (∀ f ∈ files, upToDate env acc.1 f) →
      files.foldl (scanStep env parse now) acc
        = (acc.1, acc.2.1 + files.length, acc.2.2.1, acc.2.2.2) := by
  induction files with
  | nil => intro acc _; simp
  | cons f rest ih =>
      intro acc h
      rw [List.foldl_cons, scanStep_skip env parse now acc f (h f (by simp))]
      rw [ih (acc.1, acc.2.1 + 1, acc.2.2.1, acc.2.2.2)
        (fun g hg => h g (by simp [hg]))]
      have harith : acc.2.1 + 1 + rest.length = acc.2.1 + (rest.length + 1) := by
        omega
      simp [List.length_cons, harith]

theorem scanStep_lookup_ne (env : Env) (parse : FileInfo → ParsedFile)
    (now : ℚ) (acc : Store × ℕ × ℕ × ℕ) (f : FileInfo) {p : String}
    (h : p ≠ f.path) :
    (scanStep env parse now acc f).1.ingested.lookup p
      = acc.1.ingested.lookup p := by
  unfold scanStep
  cases hl : acc.1.ingested.lookup f.path with
  | some rec =>
      by_cases hh : rec.fileHash = env.fileSha1 f.content
      · simp [hl, hh]
      · simp [hl, hh, processFile, lookup_assocSet_ne _ _ h]
  | none => simp [hl, processFile, lookup_assocSet_ne _ _ h]

theorem processFile_upToDate (env : Env) (parse : FileInfo → ParsedFile)
    (now : ℚ) (store : Store) (f : FileInfo) :
    upToDate env (processFile env parse now store f) f :=
  ⟨_, lookup_assocSet store.ingested f.path _, rfl⟩

theorem scanStep_upToDate_self (env : Env) (parse : FileInfo → ParsedFile)
    (now : ℚ) (acc : Store × ℕ × ℕ × ℕ) (f : FileInfo) :
    upToDate env (scanStep env parse now acc f).1 f := by
  unfold scanStep
  cases hl : acc.1.ingested.lookup f.path with
  | some rec =>
      by_cases hh : rec.fileHash = env.fileSha1 f.content
      · simp only [hl, if_pos hh]
        exact ⟨rec, hl, hh⟩
      · simp only [hl, if_neg hh]
        exact processFile_upToDate env parse now acc.1 f
  | none =>
      simp only [hl]
      exact processFile_upToDate env parse now acc.1 f

theorem foldl_scan_lookup_ne (env : Env) (parse : FileInfo → ParsedFile)
    (now : ℚ) (files : List FileInfo) :
    ∀ (acc : Store × ℕ × ℕ × ℕ) (p : String), (∀ f ∈ files, p ≠ f.path) →
      (files.foldl (scanStep env parse now) acc).1.ingested.lookup p
        = acc.1.ingested.lookup p := by
  induction files with
  | nil => intro acc p _; rfl
  | cons f rest ih =>
      intro acc p h
      rw [List.foldl_cons, ih _ p (fun g hg => h g (by simp [hg])),
        scanStep_lookup_ne env parse now acc f (h f (by simp))]

theorem foldl_scan_upToDate (env : Env) (parse : FileInfo → ParsedFile)
    (now : ℚ) (files : List FileInfo) :
    ∀ acc : Store × ℕ × ℕ × ℕ, (files.map FileInfo.path).Nodup →
      ∀ f ∈ files, upToDate env (files.foldl (scanStep env parse now) acc).1 f := by
  induction files with
  | nil => intro acc _ f hf; cases hf
  | cons f0 rest ih =>
      intro acc hnodup f hf
      rw [List.map_cons, List.nodup_cons] at hnodup
      rw [List.foldl_cons]
      rcases List.mem_cons.mp hf with heq | hmem
      · subst heq
        obtain ⟨rec, hl, hh⟩ :=
          scanStep_upToDate_self env parse now acc f
        refine ⟨rec, ?_, hh⟩
        rw [foldl_scan_lookup_ne env parse now rest _ f.path ?_, hl]
        intro g hg hcontr
        refine hnodup.1 ?_
        rw [hcontr]
        exact List.mem_map_of_mem FileInfo.path hg
      · exact ih _ hnodup.2 f hmem

theorem refresh_preserves_tables (weights : List (String × ℚ)) (now : ℚ)
    (s : Store) :
    (refreshMetricsAndOpportunities weights now s).ingested = s.ingested ∧
    (refreshMetricsAndOpportunities weights now s).jobs = s.jobs ∧
    (refreshMetricsAndOpportunities weights now s).talent = s.talent := by
  simp [refreshMetricsAndOpportunities]

/-- The scan-loop state reached by one `scan_and_ingest` call before the
refresh pass. -/
def scanFold (env : Env) (parse : FileInfo → ParsedFile) (now : ℚ)
    (store : Store) (files : List FileInfo) : Store × ℕ × ℕ × ℕ :=
  (files.filter
    (fun f => pyLower f.ext == ".csv" || pyLower f.ext == ".json")).foldl
    (scanStep env parse now) (store, 0, 0, 0)

theorem scanAndIngest_ingested (env : Env) (parse : FileInfo → ParsedFile)
    (weights : List (String × ℚ)) (now : ℚ) (store : Store)
    (files : List FileInfo) :
    (scanAndIngest env parse weights now store files).1.ingested =
      (scanFold env parse now store files).1.ingested := by
  simp only [scanAndIngest, scanFold]
  exact (refresh_preserves_tables weights now _).1

theorem scanAndIngest_jobs (env : Env) (parse : FileInfo → ParsedFile)
    (weights : List (String × ℚ)) (now : ℚ) (store : Store)
    (files : List FileInfo) :
    (scanAndIngest env parse weights now store files).1.jobs =
      (scanFold env parse now store files).1.jobs := by
  simp only [scanAndIngest, scanFold]
  exact (refresh_preserves_tables weights now _).2.1

theorem scanAndIngest_talent (env : Env) (parse : FileInfo → ParsedFile)
    (weights : List (String × ℚ)) (now : ℚ) (store : Store)
    (files : List FileInfo) :
    (scanAndIngest env parse weights now store files).1.talent =
      (scanFold env parse now store files).1.talent := by
  simp only [scanAndIngest, scanFold]
  exact (refresh_preserves_tables weights now _).2.2

theorem scanAndIngest_result (env : Env) (parse : FileInfo → ParsedFile)
    (weights : List (String × ℚ)) (now : ℚ) (store : Store)
    (files : List FileInfo) :
    (scanAndIngest env parse weights now store files).2 =
      { scannedFiles := (scanFold env parse now store files).2.1
      , newFiles := (scanFold env parse now store files).2.2.1
      , updatedFiles := (scanFold env parse now store files).2.2.2 } := rfl

/-- C1: scanning the same (content-unchanged) tree twice reports
`newFiles = 0` and `updatedFiles = 0` on the second call and leaves the
stored Listing (`jobs_raw`) and Provider (`talent_raw`) tables — hence their
row counts — exactly as after the first call.  The two calls may run at
different times, and the theorem holds for every parser and hash function. -/
theorem C1_idempotent_rescan (env : Env) (parse : FileInfo → ParsedFile)
    (weights : List (String × ℚ)) (now1 now2 : ℚ) (store : Store)
    (files : List FileInfo)
    (hnodup : (files.map FileInfo.path).Nodup) :
    (scanAndIngest env parse weights now2
        (scanAndIngest env parse weights now1 store files).1 files).2.newFiles
      = 0 ∧
    (scanAndIngest env parse weights now2
        (scanAndIngest env parse weights now1 store files).1 files).2.updatedFiles
      = 0 ∧
    (scanAndIngest env parse weights now2
        (scanAndIngest env parse weights now1 store files).1 files).1.jobs
      = (scanAndIngest env parse weights now1 store files).1.jobs ∧
    (scanAndIngest env parse weights now2
        (scanAndIngest env parse weights now1 store files).1 files).1.talent
      = (scanAndIngest env parse weights now1 store files).1.talent := by
  set files' := files.filter
    (fun f => pyLower f.ext == ".csv" || pyLower f.ext == ".json") with hfiles
  have hnodup' : (files'.map FileInfo.path).Nodup :=
    ((List.filter_sublist files).map FileInfo.path).nodup hnodup
  set S1 := (scanAndIngest env parse weights now1 store files).1 with hS1
  have hupd : ∀ f ∈ files', upToDate env S1 f := by
    intro f hf
    obtain ⟨rec, hl, hh⟩ := foldl_scan_upToDate env parse now1 files'
      (store, 0, 0, 0) hnodup' f hf
    refine ⟨rec, ?_, hh⟩
    rw [hS1, scanAndIngest_ingested]
    exact hl
  have hfold2 : files'.foldl (scanStep env parse now2) (S1, 0, 0, 0)
      = (S1, files'.length, 0, 0) := by
    have := foldl_scan_skip env parse now2 files' (S1, 0, 0, 0) hupd
    simpa using this
  have hsf : scanFold env parse now2 S1 files = (S1, files'.length, 0, 0) := by
    rw [scanFold, ← hfiles]
    exact hfold2
  refine ⟨?_, ?_, ?_, ?_⟩
  · rw [scanAndIngest_result, hsf]
  · rw [scanAndIngest_result, hsf]
  · rw [scanAndIngest_jobs, hsf]
  · rw [scanAndIngest_talent, hsf]

/-- The concrete environment of the C1 witness. -/
def envC1w : Env :=
  { sha1hex := fun _ => "", fileSha1 := fun _ => "h", parseDt := fun _ => none }

/-- The concrete (empty-output) parser of the C1 witness. -/
def parseC1w : FileInfo → ParsedFile :=
  fun _ => { keyword := "", jobs := [], talent := [], projects := [] }

/-- The concrete file of the C1 witness. -/
def fileC1w : FileInfo :=
  { path := "/d/a_jobs.csv", name := "a_jobs.csv", stem := "a_jobs"
  , parentName := "d", ext := ".csv", content := "x", mtime := 0 }

/-- The empty Store. -/
def emptyStore : Store :=
  { ingested := [], jobs := [], talent := [], projects := [], metrics := []
  , recommendations := [], opportunities := [], drafts := [], events := [] }

/-- Witness for `C1_idempotent_rescan` on a one-file tree. -/
theorem C1_idempotent_rescan_witness :
    (scanAndIngest envC1w parseC1w [] 1
        (scanAndIngest envC1w parseC1w [] 0 emptyStore [fileC1w]).1
        [fileC1w]).2.newFiles = 0 ∧
    (scanAndIngest envC1w parseC1w [] 1
        (scanAndIngest envC1w parseC1w [] 0 emptyStore [fileC1w]).1
        [fileC1w]).2.updatedFiles = 0 ∧
    (scanAndIngest envC1w parseC1w [] 1
        (scanAndIngest envC1w parseC1w [] 0 emptyStore [fileC1w]).1
        [fileC1w]).1.jobs
      = (scanAndIngest envC1w parseC1w [] 0 emptyStore [fileC1w]).1.jobs ∧
    (scanAndIngest envC1w parseC1w [] 1
        (scanAndIngest envC1w parseC1w [] 0 emptyStore [fileC1w]).1
        [fileC1w]).1.talent
      = (scanAndIngest envC1w parseC1w [] 0 emptyStore [fileC1w]).1.talent :=
  C1_idempotent_rescan envC1w parseC1w [] 0 1 emptyStore [fileC1w] (by decide)

/-! ## C8: the single-writer permit (`main.py` lines 62-202, 276-293,
528-535, 1109-1117, 1344-1356, 1426, 1453)

`run_db_operation_with_new_session` acquires the process-wide
`DB_WRITE_LOCK` only when its `write` flag is true; a failed acquisition
raises `db_write_lock_timeout` before the operation runs.  `acquired` models
the boolean result of `DB_WRITE_LOCK.acquire(timeout=...)`. -/

def DB_WRITE_LOCK_TIMEOUT_SECONDS : ℚ := 45

def RUN_INGEST_WRITE_TIMEOUT_FINAL_SECONDS : ℚ := 4

def RUN_INGEST_WRITE_TIMEOUT_PROGRESS_SECONDS : ℚ := 1

/-- `run_db_operation_with_new_session` specialised to one attempt: with
`write=True` and a timed-out acquisition it fails fast without running the
operation; otherwise the operation runs (with the permit held iff
`write=True`). -/
def runDbOperation {α : Type} (write acquired : Bool) (op : α → α)
    (s : α) : Except String α :=
  if write && !acquired then Except.error "db_write_lock_timeout"
  else Except.ok (op s)

/-- How one call site of `run_db_operation_with_new_session` is configured
(operation name, `write` flag, retry attempts, explicit write-lock timeout;
`none` leaves the default `DB_WRITE_LOCK_TIMEOUT_SECONDS`, which only
matters when `write` is true).  `main.py` has eight call sites in total,
each modelled below: two declare `write=True` (`runIngestPersistSite` and
`queueTelemetrySite`) and six declare (or default to) `write=False`, of
which three — the scan endpoint and the two background cycles — run
store-writing operations. -/
structure DbCallSite where
  opName : String
  write : Bool
  retryAttempts : ℕ
  writeLockTimeoutSeconds : Option ℚ
deriving DecidableEq

/-- The `/v1/ingest/scan` handler (`main.py` line 1112) — store-writing. -/
def ingestScanSite : DbCallSite := ⟨"v1_ingest_scan", false, 1, none⟩

/-- The background scan-and-score cycle (`main.py` line 185) —
store-writing. -/
def orchestratorCycleSite : DbCallSite := ⟨"orchestrator_cycle", false, 1, none⟩

/-- The score-only background refresh (`main.py` line 195) —
store-writing. -/
def orchestratorRefreshSite : DbCallSite :=
  ⟨"orchestrator_refresh", false, 1, none⟩

/-- The run-payload persistence path `_persist_run_ingest`
(`main.py` line 282). -/
def runIngestPersistSite (isFinal : Bool) : DbCallSite :=
  ⟨"v1_ingest_run", true, 1,
   some (if isFinal then RUN_INGEST_WRITE_TIMEOUT_FINAL_SECONDS
         else RUN_INGEST_WRITE_TIMEOUT_PROGRESS_SECONDS)⟩

/-- The `POST /v1/telemetry/queue` handler (`main.py` line 1349): the other
`write=True` site, with a 1.0s lock timeout (its handler catches the
timeout error and degrades to a cached read). -/
def queueTelemetrySite : DbCallSite := ⟨"v1_telemetry_queue_post", true, 1, some 1⟩

/-- The read path shared by every cached read endpoint
(`run_db_read_with_fallback`, `main.py` line 530), parameterized by the
caller's operation name — read-only. -/
def readFallbackSite (opName : String) : DbCallSite := ⟨opName, false, 1, none⟩

/-- The `/status` statistics probe (`main.py` line 1426; default retry
attempts `DB_RETRY_ATTEMPTS = 4`) — read-only. -/
def statusSite : DbCallSite := ⟨"status", false, 4, none⟩

/-- The `/health` probe (`main.py` line 1453) — read-only. -/
def healthSite : DbCallSite := ⟨"health", false, 4, none⟩

/-- The concrete environment of the C8 counterexample. -/
def envC8w : Env :=
  { sha1hex := fun _ => "", fileSha1 := fun _ => "h8", parseDt := fun _ => none }

/-- The concrete (empty-output) parser of the C8 counterexample. -/
def parseC8w : FileInfo → ParsedFile :=
  fun _ => { keyword := "", jobs := [], talent := [], projects := [] }

/-- The concrete file of the C8 counterexample. -/
def fileC8w : FileInfo :=
  { path := "/d/b_jobs.csv", name := "b_jobs.csv", stem := "b_jobs"
  , parentName := "d", ext := ".csv", content := "y", mtime := 0 }

/-- C8 fails as stated: the `/v1/ingest/scan` handler (and the background
cycle and refresh) invoke `run_db_operation_with_new_session` with
`write=False`, so the scan — which mutates the Store (here: it inserts an
`IngestedFileRecord`) — runs to completion with the write permit never
acquired. -/
theorem C8_counterexample :
    ingestScanSite.write = false ∧
    orchestratorCycleSite.write = false ∧
    orchestratorRefreshSite.write = false ∧
    runDbOperation false false
        (fun s : Store => (scanAndIngest envC8w parseC8w [] 0 s [fileC8w]).1)
        emptyStore
      = Except.ok (scanAndIngest envC8w parseC8w [] 0 emptyStore [fileC8w]).1 ∧
    (scanAndIngest envC8w parseC8w [] 0 emptyStore [fileC8w]).1.ingested
      ≠ emptyStore.ingested :=
  ⟨rfl, rfl, rfl, rfl, by decide⟩

/-- C8 as amended: of the eight `run_db_operation_with_new_session` call
sites, exactly two declare `write=True` — the run-payload persistence path
(timeout 4s final / 1s progress) and the `POST /v1/telemetry/queue` handler
(timeout 1s); on those paths the permit is acquired with a bounded timeout
and a timed-out acquisition fails fast with `db_write_lock_timeout` without
running the operation.  The scan endpoint and the background scan/refresh
cycles run their store-writing operations with `write=False`, i.e. without
acquiring the permit (the remaining `write=False` sites are read-only). -/
theorem C8_amended_write_permit :
    (∀ (α : Type) (op : α → α) (s : α),
        runDbOperation true false op s
          = Except.error "db_write_lock_timeout") ∧
    (∀ (α : Type) (op : α → α) (s : α),
        runDbOperation true true op s = Except.ok (op s)) ∧
    (∀ (α : Type) (op : α → α) (s : α) (acquired : Bool),
        runDbOperation false acquired op s = Except.ok (op s)) ∧
    (runIngestPersistSite true).write = true ∧
    (runIngestPersistSite false).write = true ∧
    (runIngestPersistSite true).writeLockTimeoutSeconds = some 4 ∧
    (runIngestPersistSite false).writeLockTimeoutSeconds = some 1 ∧
    queueTelemetrySite.write = true ∧
    queueTelemetrySite.writeLockTimeoutSeconds = some 1 ∧
    ingestScanSite.write = false ∧
    orchestratorCycleSite.write = false ∧
    orchestratorRefreshSite.write = false ∧
    (∀ opName, (readFallbackSite opName).write = false) ∧
    statusSite.write = false ∧
    healthSite.write = false :=
  ⟨fun _ _ _ => rfl, fun _ _ _ => rfl, fun _ _ _ _ => rfl,
   rfl, rfl, rfl, rfl, rfl, rfl, rfl, rfl, rfl, fun _ => rfl, rfl, rfl⟩

/-! ## Run-payload ingestion with debouncing (`main.py` lines 72-94, 205-318
and 1120-1179)

A run payload is modelled by its status, keyword and row lists; each row is
reduced to its truthy-`detail_status` flag (the only per-row datum the
debounce layer reads).  The configurable constants are taken at their
defaults (each is `max(floor, env)` in the source).  Timestamps (`time.time()`)
are rationals; the single call whose result Python reads twice within one
request is modelled as one instant `now`. -/

def RUN_INGEST_MIN_PROCESS_SECONDS : ℚ := 12

def RUN_INGEST_MIN_NEW_ITEMS : ℕ := 20

def RUN_INGEST_REFRESH_SECONDS : ℚ := 90

def RUN_INGEST_TRACKER_MAX : ℕ := 1000

/-- One crawl run's submitted payload (`payload.run`). -/
structure RunPayload where
  status : String
  keyword : String
  jobs : List Bool
  talent : List Bool
  projects : List Bool
deriving DecidableEq

/-- `FINAL_RUN_STATUSES`. -/
def FINAL_RUN_STATUSES : List String :=
  ["complete", "completed", "stopped", "done", "finished"]

/-- `_run_status_value`. -/
def runStatusValue (p : RunPayload) : String := pyLower (pyStrip p.status)

/-- `_is_final_run`. -/
def isFinalRun (p : RunPayload) : Bool :=
  FINAL_RUN_STATUSES.contains (runStatusValue p)

/-- The `total` of `_run_payload_stats`. -/
def runTotal (p : RunPayload) : ℕ :=
  p.jobs.length + p.talent.length + p.projects.length

/-- The `detail` count of `_run_payload_stats`. -/
def runDetailCount (p : RunPayload) : ℕ :=
  (p.jobs ++ p.talent ++ p.projects).count true

/-- `_build_run_signature`. -/
def buildRunSignature (p : RunPayload) : String :=
  runStatusValue p ++ "|" ++ toString p.jobs.length ++ "|"
    ++ toString p.talent.length ++ "|" ++ toString p.projects.length ++ "|"
    ++ toString (runDetailCount p)

/-- The response of a successful `_persist_run_ingest`
(the `ingest_run_payload` event payload, up to its timestamp field). -/
structure RunResponse where
  runId : String
  keyword : String
  jobsIngested : ℕ
  talentIngested : ℕ
  projectsIngested : ℕ
deriving DecidableEq

/-- The response `orchestrator.ingest_run_payload` returns for this payload
(every modelled row is a dict, so the counts are the list lengths). -/
def persistRunResponse (runId : String) (p : RunPayload) : RunResponse :=
  { runId := runId
  , keyword := if pyStrip p.keyword = "" then "general" else pyStrip p.keyword
  , jobsIngested := p.jobs.length
  , talentIngested := p.talent.length
  , projectsIngested := p.projects.length }

/-- One `RUN_INGEST_TRACKER` entry (`tracker.get(field, default)` defaults
are the field values of `trackerDefault`). -/
structure TrackerEntry where
  signature : Option String
  lastProcessedAt : ℚ
  lastTotal : ℕ
  lastResponse : Option RunResponse
  lastRefreshAt : ℚ
  updatedAt : ℚ
deriving DecidableEq

/-- The defaults of an absent tracker entry. -/
def trackerDefault : TrackerEntry :=
  { signature := none, lastProcessedAt := 0, lastTotal := 0
  , lastResponse := none, lastRefreshAt := 0, updatedAt := 0 }

abbrev TrackerMap := List (String × TrackerEntry)

/-- The outcome of one `/v1/ingest/run` call: the cached response returned by
the debounce branch, or a freshly persisted one. -/
inductive IngestOutcome where
  | cached (r : RunResponse)
  | persisted (r : RunResponse)
deriving DecidableEq

/-- The debounce decision of `ingest_run` (`main.py` lines 1126-1151),
assuming persistence succeeds when attempted. -/
def ingestRunDecision (tracker : TrackerEntry) (runId : String)
    (p : RunPayload) (now : ℚ) : IngestOutcome :=
  let signature := buildRunSignature p
  let sameSig := tracker.signature = some signature
  let recent := now - tracker.lastProcessedAt < RUN_INGEST_MIN_PROCESS_SECONDS
  let growth := runTotal p - tracker.lastTotal
  if isFinalRun p = false then
    match tracker.lastResponse with
    | some r =>
        if sameSig ∧ recent then IngestOutcome.cached r
        else if recent ∧ growth < RUN_INGEST_MIN_NEW_ITEMS then
          IngestOutcome.cached r
        else IngestOutcome.persisted (persistRunResponse runId p)
    | none => IngestOutcome.persisted (persistRunResponse runId p)
  else IngestOutcome.persisted (persistRunResponse runId p)

/-- Python `list.remove`-style deletion from an association list. -/
def assocRemove {α : Type} (l : List (String × α)) (k : String) :
    List (String × α) :=
  l.filter (fun kv => kv.1 != k)

/-- Sort tracker entries by `updated_at`, newest first (the pruning order of
`_update_run_ingest_tracker`). -/
def insertByUpdatedDesc (x : String × TrackerEntry) :
    TrackerMap → TrackerMap
  | [] => [x]
  | y :: rest =>
      if x.2.updatedAt ≥ y.2.updatedAt then x :: y :: rest
      else y :: insertByUpdatedDesc x rest

/-- `sorted(items, key=updated_at, reverse=True)`. -/
def sortByUpdatedDesc (l : TrackerMap) : TrackerMap :=
  l.foldr insertByUpdatedDesc []

/-- The size cap of `_update_run_ingest_tracker`: keep the
`RUN_INGEST_TRACKER_MAX` most recently updated entries. -/
def pruneTracker (m : TrackerMap) : TrackerMap :=
  if m.length ≤ RUN_INGEST_TRACKER_MAX then m
  else (sortByUpdatedDesc m).take RUN_INGEST_TRACKER_MAX

/-- `_record_run_ingest_success`: drop the tracker entry of a final run,
otherwise merge the update (and prune). -/
def recordRunIngestSuccess (m : TrackerMap) (runId sig : String) (total : ℕ)
    (resp : RunResponse) (processedAt : ℚ) (isFinal didRefresh : Bool) :
    TrackerMap :=
  if isFinal then assocRemove m runId
  else
    let old := (m.lookup runId).getD trackerDefault
    pruneTracker (assocSet m runId
      { signature := some sig
      , lastProcessedAt := processedAt
      , lastTotal := total
      , lastResponse := some resp
      , lastRefreshAt := if didRefresh then processedAt else old.lastRefreshAt
      , updatedAt := processedAt })

/-- One full `/v1/ingest/run` call over the tracker map: decision plus
bookkeeping (the cached branch returns before any recording). -/
def fullIngestRun (m : TrackerMap) (runId : String) (p : RunPayload)
    (now : ℚ) : IngestOutcome × TrackerMap :=
  let tracker := (m.lookup runId).getD trackerDefault
  match ingestRunDecision tracker runId p now with
  | IngestOutcome.cached r => (IngestOutcome.cached r, m)
  | IngestOutcome.persisted r =>
      let doRefresh := isFinalRun p
        || decide (now - tracker.lastRefreshAt ≥ RUN_INGEST_REFRESH_SECONDS)
      (IngestOutcome.persisted r,
       recordRunIngestSuccess m runId (buildRunSignature p) (runTotal p) r
         now (isFinalRun p) doRefresh)

/-- First submission of the C7 counterexample: a non-final run with 10 job
rows. -/
def p1C7 : RunPayload :=
  { status := "running", keyword := "k", jobs := List.replicate 10 false
  , talent := [], projects := [] }

/-- Second submission of the C7 counterexample: the same run grown to 30 job
rows (growth 20 = `RUN_INGEST_MIN_NEW_ITEMS`). -/
def p2C7 : RunPayload :=
  { status := "running", keyword := "k", jobs := List.replicate 30 false
  , talent := [], projects := [] }

/-- When the signature changed and the growth is not small, the non-final
decision persists, whatever the timestamps. -/
theorem ingestRunDecision_persists (tracker : TrackerEntry) (runId : String)
    (p : RunPayload) (now : ℚ)
    (hfin : isFinalRun p = false)
    (hsig : ¬tracker.signature = some (buildRunSignature p))
    (hgrow : ¬(runTotal p - tracker.lastTotal < RUN_INGEST_MIN_NEW_ITEMS)) :
    ingestRunDecision tracker runId p now
      = IngestOutcome.persisted (persistRunResponse runId p) := by
  simp only [ingestRunDecision, hfin]
  rw [if_pos trivial]
  cases hresp : tracker.lastResponse with
  | none => rfl
  | some r =>
      simp only [if_neg (fun hc => hsig (And.left hc)),
        if_neg (fun hc => hgrow (And.right hc))]

/-- The tracker entry recorded for the first C7 submission. -/
def trackerC7 : TrackerEntry :=
  { signature := some (buildRunSignature p1C7), lastProcessedAt := 0
  , lastTotal := 10, lastResponse := some (persistRunResponse "r1" p1C7)
  , lastRefreshAt := 0, updatedAt := 0 }

/-- C7 fails as stated: the first submission persists and records
`trackerC7`; a second non-final submission of the same `runId` within the
debounce window (5s after the first, < 12s) with grown row counts (10 → 30)
is NOT coalesced — because the growth reaches `RUN_INGEST_MIN_NEW_ITEMS`
(20), it is persisted again instead of returning the cached response of the
first call. -/
theorem C7_counterexample :
    isFinalRun p2C7 = false ∧
    ((5 : ℚ) - trackerC7.lastProcessedAt < RUN_INGEST_MIN_PROCESS_SECONDS) ∧
    runTotal p1C7 < runTotal p2C7 ∧
    fullIngestRun [] "r1" p1C7 0
      = (IngestOutcome.persisted (persistRunResponse "r1" p1C7),
         [("r1", trackerC7)]) ∧
    (fullIngestRun [("r1", trackerC7)] "r1" p2C7 5).1
      = IngestOutcome.persisted (persistRunResponse "r1" p2C7) ∧
    (fullIngestRun [("r1", trackerC7)] "r1" p2C7 5).1
      ≠ IngestOutcome.cached (persistRunResponse "r1" p1C7) := by
  have hfin1 : isFinalRun p1C7 = false := by decide
  have hfin2 : isFinalRun p2C7 = false := by decide
  have hnr : ¬((0 : ℚ) - trackerDefault.lastRefreshAt
      ≥ RUN_INGEST_REFRESH_SECONDS) := by
    norm_num [trackerDefault, RUN_INGEST_REFRESH_SECONDS]
  have hrec5 : (5 : ℚ) - trackerC7.lastProcessedAt
      < RUN_INGEST_MIN_PROCESS_SECONDS := by
    norm_num [trackerC7, RUN_INGEST_MIN_PROCESS_SECONDS]
  have hnr5 : ¬((5 : ℚ) - trackerC7.lastRefreshAt
      ≥ RUN_INGEST_REFRESH_SECONDS) := by
    norm_num [trackerC7, RUN_INGEST_REFRESH_SECONDS]
  have hsig2 : ¬(trackerC7.signature = some (buildRunSignature p2C7)) := by
    decide
  have hgrow2 : ¬(runTotal p2C7 - trackerC7.lastTotal
      < RUN_INGEST_MIN_NEW_ITEMS) := by decide
  have hdec1 : ingestRunDecision trackerDefault "r1" p1C7 0
      = IngestOutcome.persisted (persistRunResponse "r1" p1C7) := by
    simp [ingestRunDecision, trackerDefault, hfin1]
  have hdec2 : ingestRunDecision trackerC7 "r1" p2C7 5
      = IngestOutcome.persisted (persistRunResponse "r1" p2C7) :=
    ingestRunDecision_persists trackerC7 "r1" p2C7 5 hfin2 hsig2 hgrow2
  refine ⟨hfin2, hrec5, by decide, ?_, ?_, ?_⟩
  · simp only [fullIngestRun, List.lookup_nil, Option.getD, hdec1]
    have hdr : (isFinalRun p1C7
        || decide ((0 : ℚ) - trackerDefault.lastRefreshAt
            ≥ RUN_INGEST_REFRESH_SECONDS)) = false := by
      rw [hfin1, decide_eq_false hnr]
      rfl
    rw [hdr]
    rfl
  · simp only [fullIngestRun]
    rw [show ([("r1", trackerC7)] : TrackerMap).lookup "r1"
      = some trackerC7 from rfl]
    simp only [Option.getD, hdec2]
  · simp only [fullIngestRun]
    rw [show ([("r1", trackerC7)] : TrackerMap).lookup "r1"
      = some trackerC7 from rfl]
    simp only [Option.getD, hdec2]
    simp

/-- C7 as amended: a second non-final submission within the debounce window
is coalesced to the cached response exactly when its signature is unchanged
or its total row count grew by fewer than `RUN_INGEST_MIN_NEW_ITEMS` (20);
and a final-status payload always persists, regardless of the window. -/
theorem C7_amended_debounce :
    (∀ (tracker : TrackerEntry) (runId : String) (p : RunPayload) (now : ℚ)
        (r : RunResponse),
      isFinalRun p = false →
      tracker.lastResponse = some r →
      now - tracker.lastProcessedAt < RUN_INGEST_MIN_PROCESS_SECONDS →
      (tracker.signature = some (buildRunSignature p) ∨
        runTotal p - tracker.lastTotal < RUN_INGEST_MIN_NEW_ITEMS) →
      ingestRunDecision tracker runId p now = IngestOutcome.cached r) ∧
    (∀ (m : TrackerMap) (runId : String) (p : RunPayload) (now : ℚ),
      isFinalRun p = true →
      (fullIngestRun m runId p now).1
        = IngestOutcome.persisted (persistRunResponse runId p)) := by
  constructor
  · intro tracker runId p now r hfin hresp hrecent hcoal
    simp only [ingestRunDecision, hfin, hresp]
    by_cases hsig : tracker.signature = some (buildRunSignature p)
    · rw [if_pos trivial, if_pos ⟨hsig, hrecent⟩]
    · have hgrow : runTotal p - tracker.lastTotal < RUN_INGEST_MIN_NEW_ITEMS :=
        hcoal.resolve_left hsig
      rw [if_pos trivial, if_neg (fun hc => hsig hc.1),
        if_pos ⟨hrecent, hgrow⟩]
  · intro m runId p now hfin
    simp [fullIngestRun, ingestRunDecision, hfin]

/-- The tracker entry left by a first submission, used by the C7 witness. -/
def trackerC7w : TrackerEntry :=
  { signature := some (buildRunSignature p1C7), lastProcessedAt := 0
  , lastTotal := 10, lastResponse := some (persistRunResponse "r1" p1C7)
  , lastRefreshAt := 0, updatedAt := 0 }

/-- Witness for `C7_amended_debounce`: an identical resubmission 5s later is
answered from the cache. -/
theorem C7_amended_debounce_witness :
    ingestRunDecision trackerC7w "r1" p1C7 5
      = IngestOutcome.cached (persistRunResponse "r1" p1C7) :=
  C7_amended_debounce.1 trackerC7w "r1" p1C7 5 (persistRunResponse "r1" p1C7)
    rfl rfl (by norm_num [trackerC7w, RUN_INGEST_MIN_PROCESS_SECONDS])
    (Or.inl rfl)

/-! ## C9: the retry-queue trim step (`main.py` lines 76-80, 321-413) -/

/-- `_run_payload_stats`. -/
structure RunStats where
  jobs : ℕ
  talent : ℕ
  projects : ℕ
  total : ℕ
  detail : ℕ
deriving DecidableEq

/-- `_run_payload_stats` of a payload. -/
def runStatsOf (p : RunPayload) : RunStats :=
  { jobs := p.jobs.length, talent := p.talent.length
  , projects := p.projects.length, total := runTotal p
  , detail := runDetailCount p }

def RUN_INGEST_RETRY_INTERVAL_SECONDS : ℚ := 2

def RUN_INGEST_RETRY_MAX_BACKOFF_SECONDS : ℚ := 60

/-- Default of `RUN_INGEST_RETRY_MAX_QUEUE` (`max(100, env)`, so always at
least 100; the queue functions below take the bound as a parameter). -/
def RUN_INGEST_RETRY_MAX_QUEUE : ℕ := 3000

/-- One `RUN_INGEST_RETRY_QUEUE` entry. -/
structure RetryEntry where
  payload : RunPayload
  signature : String
  stats : RunStats
  isFinal : Bool
  queuedAt : ℚ
  lastQueuedAt : ℚ
  attempts : ℕ
  nextRetryAt : ℚ
  lastError : String
deriving DecidableEq

abbrev RetryQueue := List (String × RetryEntry)

/-- `_trim_ingest_retry_queue_unlocked`.  When the queue is within the bound
the function returns immediately.  Otherwise Python evaluates the first
trimming comprehension, whose `if not entry[1].get("is_final")` filter
references the name `entry` — that name is only the sort key's lambda
parameter, which is NOT in scope in the comprehension, so the first
iteration raises `NameError`; an over-bound queue is necessarily non-empty,
so the error is always raised and nothing is trimmed. -/
def trimIngestRetryQueue (maxQueue : ℕ) (q : RetryQueue) :
    Except String RetryQueue :=
  if q.length ≤ maxQueue then Except.ok q
  else
    match q with
    | [] => Except.ok q
    | _ :: _ => Except.error "NameError: name 'entry' is not defined"

/-- `_enqueue_run_ingest_retry`: dedupe shrinking non-final payloads, store
the entry, then trim; the pair carries the queue state left behind (the dict
mutation precedes the trim) and the raised error, if any. -/
def enqueueRunIngestRetry (maxQueue : ℕ) (now : ℚ) (q : RetryQueue)
    (runId : String) (p : RunPayload) (isFinal : Bool) (error : String) :
    RetryQueue × Except String Unit :=
  let current := q.lookup runId
  let stats := runStatsOf p
  let currentTotal := match current with | some c => c.stats.total | none => 0
  if current.isSome ∧ isFinal = false ∧ stats.total < currentTotal then
    (q, Except.ok ())
  else
    let entry : RetryEntry :=
      { payload := p
      , signature := buildRunSignature p
      , stats := stats
      , isFinal := isFinal
          || (match current with | some c => c.isFinal | none => false)
      , queuedAt := match current with | some c => c.queuedAt | none => now
      , lastQueuedAt := now
      , attempts := match current with | some c => c.attempts | none => 0
      , nextRetryAt := now
      , lastError := error }
    let q' := assocSet q runId entry
    match trimIngestRetryQueue maxQueue q' with
    | Except.ok q2 => (q2, Except.ok ())
    | Except.error e => (q', Except.error e)

/-- `_requeue_ingest_retry`: exponential backoff, re-store, then trim. -/
def requeueIngestRetry (maxQueue : ℕ) (now : ℚ) (q : RetryQueue)
    (runId : String) (e : RetryEntry) (error : String) :
    RetryQueue × Except String Unit :=
  let attempts := e.attempts + 1
  let backoff := min RUN_INGEST_RETRY_MAX_BACKOFF_SECONDS
    (RUN_INGEST_RETRY_INTERVAL_SECONDS * 2 ^ (min attempts 6))
  let q' := assocSet q runId
    { e with attempts := attempts, lastError := error
           , nextRetryAt := now + backoff, lastQueuedAt := now }
  match trimIngestRetryQueue maxQueue q' with
  | Except.ok q2 => (q2, Except.ok ())
  | Except.error err => (q', Except.error err)

/-- The payload of the C9 failing input. -/
def pC9 : RunPayload :=
  { status := "running", keyword := "k", jobs := [], talent := []
  , projects := [] }

/-- A generic queued entry. -/
def entryC9 : RetryEntry :=
  { payload := pC9, signature := buildRunSignature pC9, stats := runStatsOf pC9
  , isFinal := false, queuedAt := 0, lastQueuedAt := 0, attempts := 0
  , nextRetryAt := 0, lastError := "db locked" }

/-- A retry queue already holding `maxQueue = 100` entries (100 is the floor
of the configurable bound). -/
def queueC9 : RetryQueue := (List.range 100).map (fun i => (toString i, entryC9))

/-- C9's failing input evaluated: enqueueing one more failed payload onto a
full queue makes the trim step raise `NameError` (the unbound `entry` in the
trimming comprehension) and leaves the queue at 101 > 100 entries — the trim
neither completes nor enforces the bound. -/
theorem C9_trim_name_error :
    queueC9.length = 100 ∧
    (enqueueRunIngestRetry 100 1 queueC9 "r_new" pC9 false "db locked").2
      = Except.error "NameError: name 'entry' is not defined" ∧
    (enqueueRunIngestRetry 100 1 queueC9 "r_new" pC9 false "db locked").1.length
      = 101 :=
  ⟨rfl, rfl, rfl⟩

end UpworkDNA
